import Mathlib

/-!
Verification development for the configuration subsystem of
`cosmos_reason1/policy/config/__init__.py`: the typed configuration tree,
variant resolution, timestamp synthesis, deep merge, validation, and the
config hasher.

Conventions of the shallow embedding:
* Python `int` is `Int`; `%` is `Int.fmod` and `//` is `Int.fdiv`
  (Python uses floored division).
* Python `float` literals are uninterpreted: a float value is identified
  by its `repr` string (`PyFloat`).  No modelled operation performs float
  arithmetic.
* Exceptions become `Except CfgErr`.  Python `AssertionError`s raised by
  `Config.validate` and the `__post_init__` checks are mapped to
  `CfgErr.validationError`, the `ValueError` for `upload_s3` to
  `CfgErr.invalidChoiceError`, the `ValueError`s of
  `CheckpointConfig.__post_init__` to `CfgErr.validationError` and the
  `ValueError` of `TrainingConfig.__post_init__` to
  `CfgErr.incompatibleOptionsError`, following the error taxonomy used by
  the specification.
* `datetime.now()` is an external effect; it is passed in as an explicit
  `PyDateTime` argument and rendered with the source's format string
  `"%Y%m%d%H%M%S"`.
-/

/-- Error taxonomy of the configuration subsystem (spec section 7),
together with the Python standard exceptions that the source can raise. -/
inductive CfgErr where
  /-- An `assert` in `Config.validate` / a `ValueError` of
  `CheckpointConfig.__post_init__` (carries the message). -/
  | validationError (msg : String)
  /-- The `ValueError` raised for a bad `upload_s3` value. -/
  | invalidChoiceError (msg : String)
  /-- The `ValueError` raised by `TrainingConfig.__post_init__` when
  `async_tp_enabled` is set without `compile`. -/
  | incompatibleOptionsError (msg : String)
  /-- An override value incompatible with the declared field type
  (raised by the deep merge; carries the field name). -/
  | typeMismatchError (fieldName : String)
  /-- A `KeyError` from indexing a Python dict with a missing key. -/
  | keyError (k : String)
  /-- A Python `TypeError` from the standard library (e.g. `json.dumps`
  on a non-serializable value, `os.path.join` on a non-string). -/
  | pyTypeError (msg : String)
  /-- An `AttributeError` from accessing a missing dataclass field. -/
  | attributeError (attr : String)
  /-- An unrecognized top-level section in the override mapping
  (spec section 6: rejected rather than silently ignored). -/
  | unknownSectionError (k : String)
deriving DecidableEq, Repr

/-- A Python float, identified by its `repr` string.  No claim depends on
float arithmetic, only on float values being stored and serialized. -/
structure PyFloat where
  rep : String
deriving DecidableEq, Repr

/-- Model of the Python values that appear in override mappings and in
objects given to `config_hash`. -/
inductive PyVal where
  /-- Python `None`. -/
  | vnone
  | vbool (b : Bool)
  | vint (n : Int)
  | vfloat (f : PyFloat)
  | vstr (s : String)
  | vlist (xs : List PyVal)
  /-- A string-keyed Python dict (association list in insertion order). -/
  | vdict (entries : List (String × PyVal))
  /-- A Python `set` — an example of a non-JSON-serializable value. -/
  | vset (xs : List PyVal)
  /-- A dataclass instance with its named fields. -/
  | vobj (fields : List (String × PyVal))

/-- A string-keyed Python dict in insertion order. -/
abbrev PyDict := List (String × PyVal)

/-- Dict lookup, `d[k]` / `k in d`. -/
def PyDict.find : PyDict → String → Option PyVal
  | [], _ => none
  | (k', v) :: rest, k => if k' = k then some v else PyDict.find rest k

/-- Dict assignment `d[k] = v`: replaces in place, appends if the key is
new (Python dicts preserve insertion order). -/
def PyDict.set : PyDict → String → PyVal → PyDict
  | [], k, v => [(k, v)]
  | (k', v') :: rest, k, v =>
      if k' = k then (k, v) :: rest else (k', v') :: PyDict.set rest k v

theorem PyDict.find_set_self (d : PyDict) (k : String) (v : PyVal) :
    (d.set k v).find k = some v := by
  induction d with
  | nil => simp [PyDict.set, PyDict.find]
  | cons hd tl ih =>
      by_cases h : hd.1 = k <;> simp [PyDict.set, PyDict.find, h, ih]

theorem PyDict.find_set_ne (d : PyDict) (k k' : String) (v : PyVal)
    (h : k' ≠ k) : (d.set k v).find k' = d.find k' := by
  have hk' : ¬ k = k' := fun hh => h hh.symm
  induction d with
  | nil => simp [PyDict.set, PyDict.find, hk']
  | cons hd tl ih =>
      by_cases hk : hd.1 = k
      · have : ¬ hd.1 = k' := fun hh => h (hh.symm.trans hk)
        simp [PyDict.set, PyDict.find, hk, hk', this]
      · simp only [PyDict.set, hk, if_false]
        by_cases hh : hd.1 = k' <;> simp [PyDict.find, hh, ih]

/-- Truthiness of the `timestamp` emptiness test in `Config.from_dict`:
`config_data["train"]["timestamp"] == ""` (a non-string value compares
unequal to `""` in Python). -/
def PyVal.isEmptyStr : PyVal → Bool
  | .vstr "" => true
  | _ => false

/-! ### MD5 (`hashlib.md5(...).hexdigest()`)

A faithful implementation of MD5 over byte lists, with 32-bit words
represented as `Nat` reduced modulo `2 ^ 32`. -/

/-- Reduce to a 32-bit word. -/
def u32 (n : Nat) : Nat := n % 4294967296

/-- Bitwise complement within 32 bits. -/
def mnot (x : Nat) : Nat := x ^^^ 4294967295

/-- 32-bit left rotation. -/
def rotl (x n : Nat) : Nat := u32 ((x <<< n) ||| (x >>> (32 - n)))

/-- The MD5 additive constants `K[0..63]`. -/
def md5K : List Nat :=
  [0xd76aa478, 0xe8c7b756, 0x242070db, 0xc1bdceee,
   0xf57c0faf, 0x4787c62a, 0xa8304613, 0xfd469501,
   0x698098d8, 0x8b44f7af, 0xffff5bb1, 0x895cd7be,
   0x6b901122, 0xfd987193, 0xa679438e, 0x49b40821,
   0xf61e2562, 0xc040b340, 0x265e5a51, 0xe9b6c7aa,
   0xd62f105d, 0x02441453, 0xd8a1e681, 0xe7d3fbc8,
   0x21e1cde6, 0xc33707d6, 0xf4d50d87, 0x455a14ed,
   0xa9e3e905, 0xfcefa3f8, 0x676f02d9, 0x8d2a4c8a,
   0xfffa3942, 0x8771f681, 0x6d9d6122, 0xfde5380c,
   0xa4beea44, 0x4bdecfa9, 0xf6bb4b60, 0xbebfbc70,
   0x289b7ec6, 0xeaa127fa, 0xd4ef3085, 0x04881d05,
   0xd9d4d039, 0xe6db99e5, 0x1fa27cf8, 0xc4ac5665,
   0xf4292244, 0x432aff97, 0xab9423a7, 0xfc93a039,
   0x655b59c3, 0x8f0ccc92, 0xffeff47d, 0x85845dd1,
   0x6fa87e4f, 0xfe2ce6e0, 0xa3014314, 0x4e0811a1,
   0xf7537e82, 0xbd3af235, 0x2ad7d2bb, 0xeb86d391]

/-- The MD5 per-round left-rotation amounts `s[0..63]`. -/
def md5S : List Nat :=
  [7, 12, 17, 22, 7, 12, 17, 22, 7, 12, 17, 22, 7, 12, 17, 22,
   5, 9, 14, 20, 5, 9, 14, 20, 5, 9, 14, 20, 5, 9, 14, 20,
   4, 11, 16, 23, 4, 11, 16, 23, 4, 11, 16, 23, 4, 11, 16, 23,
   6, 10, 15, 21, 6, 10, 15, 21, 6, 10, 15, 21, 6, 10, 15, 21]

/-- Little-endian 32-bit word `g` of a 64-byte chunk. -/
def chunkWord (chunk : List Nat) (g : Nat) : Nat :=
  chunk.getD (4 * g) 0 + chunk.getD (4 * g + 1) 0 * 256 +
    chunk.getD (4 * g + 2) 0 * 65536 + chunk.getD (4 * g + 3) 0 * 16777216

/-- One MD5 round. -/
def md5Round (chunk : List Nat) (st : Nat × Nat × Nat × Nat) (i : Nat) :
    Nat × Nat × Nat × Nat :=
  let (a, b, c, d) := st
  let fg : Nat × Nat :=
    if i < 16 then ((b &&& c) ||| (mnot b &&& d), i)
    else if i < 32 then ((d &&& b) ||| (mnot d &&& c), (5 * i + 1) % 16)
    else if i < 48 then (b ^^^ c ^^^ d, (3 * i + 5) % 16)
    else (c ^^^ (b ||| mnot d), (7 * i) % 16)
  let f := u32 (fg.1 + a + md5K.getD i 0 + chunkWord chunk fg.2)
  (d, u32 (b + rotl f (md5S.getD i 0)), b, c)

/-- Process one 64-byte chunk. -/
def md5Chunk (st : Nat × Nat × Nat × Nat) (chunk : List Nat) :
    Nat × Nat × Nat × Nat :=
  let r := (List.range 64).foldl (md5Round chunk) st
  (u32 (st.1 + r.1), u32 (st.2.1 + r.2.1),
   u32 (st.2.2.1 + r.2.2.1), u32 (st.2.2.2 + r.2.2.2))

/-- The 8-byte little-endian encoding of the bit length. -/
def md5LenBytes (len : Nat) : List Nat :=
  (List.range 8).map (fun i => len * 8 / 256 ^ i % 256)

/-- MD5 padding: append `0x80`, zero bytes up to 56 mod 64, then the
64-bit little-endian bit length. -/
def md5Pad (msg : List Nat) : List Nat :=
  let z := (56 + 64 - (msg.length + 1) % 64) % 64
  msg ++ [128] ++ List.replicate z 0 ++ md5LenBytes msg.length

/-- Split a byte list into 64-byte chunks. -/
def chunks64 (l : List Nat) : List (List Nat) :=
  if _h : l.length ≤ 64 then [l]
  else l.take 64 :: chunks64 (l.drop 64)
termination_by l.length
decreasing_by simp [List.length_drop]; omega

/-- The four final MD5 state words of a message. -/
def md5Words (msg : List Nat) : Nat × Nat × Nat × Nat :=
  (chunks64 (md5Pad msg)).foldl md5Chunk
    (0x67452301, 0xefcdab89, 0x98badcfe, 0x10325476)

/-- The sixteen lowercase hex digits. -/
def hexDigits : List Char := "0123456789abcdef".data

/-- Hex digit of a value (reduced mod 16). -/
def hexDigit (n : Nat) : Char := hexDigits.getD (n % 16) '0'

/-- The two hex characters of one byte. -/
def byteHex (b : Nat) : List Char := [hexDigit (b / 16 % 16), hexDigit (b % 16)]

/-- The four little-endian bytes of a 32-bit word. -/
def wordBytesLE (w : Nat) : List Nat :=
  [w % 256, w / 256 % 256, w / 65536 % 256, w / 16777216 % 256]

/-- The sixteen digest bytes of a final MD5 state. -/
def stateBytes (st : Nat × Nat × Nat × Nat) : List Nat :=
  wordBytesLE st.1 ++ wordBytesLE st.2.1 ++
    wordBytesLE st.2.2.1 ++ wordBytesLE st.2.2.2

/-- `hashlib.md5(bytes).hexdigest()`: the 32-character lowercase hex
digest of a byte list. -/
def md5Hex (msg : List Nat) : String :=
  ⟨(stateBytes (md5Words msg)).flatMap byteHex⟩

theorem hexDigit_mem (n : Nat) : hexDigit n ∈ hexDigits := by
  have h : n % 16 < 16 := Nat.mod_lt _ (by norm_num)
  have hall : ∀ m, m < 16 → hexDigits.getD m '0' ∈ hexDigits := by decide
  exact hall _ h

theorem length_bind_byteHex (l : List Nat) :
    (l.flatMap byteHex).length = 2 * l.length := by
  induction l with
  | nil => rfl
  | cons h t ih => simp [List.flatMap_cons, byteHex] at *; omega

theorem stateBytes_length (st : Nat × Nat × Nat × Nat) :
    (stateBytes st).length = 16 := rfl

/-- The MD5 hexdigest always has 32 characters. -/
theorem md5Hex_length (msg : List Nat) : (md5Hex msg).length = 32 := by
  show ((stateBytes (md5Words msg)).flatMap byteHex).length = 32
  rw [length_bind_byteHex, stateBytes_length]

/-- Every character of an MD5 hexdigest is a hex digit. -/
theorem md5Hex_chars (msg : List Nat) :
    ∀ c ∈ (md5Hex msg).data, c ∈ hexDigits := by
  intro c hc
  have : c ∈ (stateBytes (md5Words msg)).flatMap byteHex := hc
  rw [List.mem_flatMap] at this
  obtain ⟨b, _, hb⟩ := this
  simp only [byteHex, List.mem_cons, List.mem_singleton] at hb
  rcases hb with rfl | rfl | h
  · exact hexDigit_mem _
  · exact hexDigit_mem _
  · exact absurd h (List.not_mem_nil c)

/-! ### The config hasher (`config_hash`)

```python
def config_hash(config) -> str:
    if is_dataclass(config):
        return hashlib.md5(json.dumps(asdict(config)).encode()).hexdigest()
    else:
        return "unhashable"
```
-/

/-- `dataclasses.is_dataclass`. -/
def isDataclass : PyVal → Bool
  | .vobj _ => true
  | _ => false

mutual
/-- `dataclasses.asdict`: recursively converts dataclass instances to
dicts, recursing into dicts and lists; other values are copied. -/
def asdictVal : PyVal → PyVal
  | .vobj fs => .vdict (asdictEntries fs)
  | .vdict fs => .vdict (asdictEntries fs)
  | .vlist xs => .vlist (asdictList xs)
  | v => v

def asdictEntries : List (String × PyVal) → List (String × PyVal)
  | [] => []
  | (k, v) :: rest => (k, asdictVal v) :: asdictEntries rest

def asdictList : List PyVal → List PyVal
  | [] => []
  | v :: rest => asdictVal v :: asdictList rest
end

/-- Escaping of one character inside a JSON string literal (escaping of
control and non-ASCII characters is elided: no claim depends on the
rendered text of such strings). -/
def jsonEscapeChar (c : Char) : List Char :=
  if c = '"' ∨ c = '\\' then ['\\', c] else [c]

/-- A JSON string literal. -/
def jsonQuote (s : String) : String :=
  "\"" ++ String.mk (s.data.flatMap jsonEscapeChar) ++ "\""

mutual
/-- `json.dumps` with its default separators `", "` and `": "`; returns
`none` (Python `TypeError`) on a value JSON cannot serialize. -/
def jsonDumps : PyVal → Option String
  | .vnone => some "null"
  | .vbool true => some "true"
  | .vbool false => some "false"
  | .vint n => some (toString n)
  | .vfloat f => some f.rep
  | .vstr s => some (jsonQuote s)
  | .vlist xs => do
      let parts ← jsonList xs
      some ("[" ++ String.intercalate ", " parts ++ "]")
  | .vdict es => do
      let parts ← jsonEntries es
      some ("\x7b" ++ String.intercalate ", " parts ++ "\x7d")
  | .vset _ => none
  | .vobj _ => none

def jsonList : List PyVal → Option (List String)
  | [] => some []
  | v :: rest => do
      let s ← jsonDumps v
      let r ← jsonList rest
      some (s :: r)

def jsonEntries : List (String × PyVal) → Option (List String)
  | [] => some []
  | (k, v) :: rest => do
      let s ← jsonDumps v
      let r ← jsonEntries rest
      some ((jsonQuote k ++ ": " ++ s) :: r)
end

/-- `str.encode()`: the code points of a string (the JSON text produced
here is ASCII, where UTF-8 coincides with code points). -/
def strBytes (s : String) : List Nat := s.data.map Char.toNat

/-- `config_hash` from the source: the MD5 hexdigest of the JSON
serialization of `asdict(config)` for a dataclass, the sentinel
`"unhashable"` otherwise; `json.dumps` raises `TypeError` on a dataclass
containing a non-serializable value. -/
def configHash (config : PyVal) : Except CfgErr String :=
  if isDataclass config then
    match jsonDumps (asdictVal config) with
    | some s => .ok (md5Hex (strBytes s))
    | none => .error (.pyTypeError "Object is not JSON serializable")
  else
    .ok "unhashable"

/-! ### The configuration tree

The dataclasses of the source, with their declared defaults.  Source
field names are kept, with one exception: `CheckpointConfig.s3_prefix`
is embedded as `s3_prefix_`. -/

/-- A `Union[bool, str]` value (`resume`, `upload_s3`). -/
inductive BoolOrStr where
  | b (v : Bool)
  | s (v : String)
deriving DecidableEq, Repr

/-- A `Union[str, List[str]]` value (dataset splits, reward functions). -/
inductive StrOrList where
  | s (v : String)
  | l (v : List String)
deriving DecidableEq, Repr

/-- A `Union[float, int]` value (`dataset_test_size`). -/
inductive FloatOrInt where
  | f (v : PyFloat)
  | i (v : Int)
deriving DecidableEq, Repr

/-- `SFTDataConfig` (the supervised training-policy variant). -/
structure SFTDataConfig where
  type : String := "sft"
  dataset_name : String := ""
  dataset_subset : Option String := some ""
  dataset_revision : Option String := some ""
  dataset_train_split : StrOrList := .l []
  dataset_test_split : String := "test"
  dataset_test_size : FloatOrInt := .f ⟨"0.1"⟩
  enable_dataset_preprocess : Bool := false
  enable_dataset_cache : Bool := false
  dataloader_num_workers : Int := 0
  dataloader_prefetch_factor : Option Int := none
  enable_validation : Bool := false
  validation_freq : Int := 20
  validation_batch_per_replica : Int := 24
  conversation_column_name : String := "conversations"
  system_prompt : String := ""
  max_pixels : Int := 81920
  fps : Int := 2
  vision_asset_column_name : String := ""
deriving DecidableEq, Repr

/-- `OverlongRewardConfig`. -/
structure OverlongRewardConfig where
  enable_overlong_penalty : Bool := false
  buffer_length : Int := 4096
  penalty_factor : PyFloat := ⟨"1.0"⟩
deriving DecidableEq, Repr

/-- `GrpoConfig` (the reinforcement training-policy variant). -/
structure GrpoConfig where
  type : String := "grpo"
  variant : String := "grpo"
  dataset_name : String := ""
  dataset_subset : Option String := some ""
  dataset_revision : Option String := some ""
  dataset_train_split : StrOrList := .l []
  enable_dataset_preprocess : Bool := false
  enable_dataset_cache : Bool := false
  dataloader_num_workers : Int := 0
  dataloader_prefetch_factor : Option Int := none
  prompt_column_name : String := ""
  choices_column_name : String := ""
  response_column_name : String := ""
  system_prompt : String := ""
  max_pixels : Int := 81920
  fps : Int := 2
  vision_asset_column_name : String := ""
  reward_function : StrOrList := .l []
  temperature : PyFloat := ⟨"0.9"⟩
  epsilon_low : PyFloat := ⟨"0.2"⟩
  epsilon_high : PyFloat := ⟨"0.2"⟩
  overlong_reward : OverlongRewardConfig := {}
  kl_beta : PyFloat := ⟨"0.0"⟩
  mu_iterations : Int := 1
  mini_batch : Int := 2
  allowed_outdated_steps : Int := 10
deriving DecidableEq, Repr

/-- `CheckpointConfig` (`s3_prefix` renamed to `s3_prefix_`). -/
structure CheckpointConfig where
  enable_checkpoint : Bool := false
  save_freq : Int := 20
  save_mode : String := "async"
  max_keep : Int := 5
  export_safetensors : Bool := true
  upload_hf : Bool := false
  hf_repo_name : String := "Comos-Reason1"
  upload_s3 : BoolOrStr := .b false
  s3_bucket : String := "cosmos-reason1"
  s3_prefix_ : String := "outputs"
deriving DecidableEq, Repr

/-- `ProfilerConfig`. -/
structure ProfilerConfig where
  enable_profiler : Bool := false
  active_steps : Int := 1
  rank_filter : List Int := []
deriving DecidableEq, Repr

/-- The polymorphic `train_policy` field: a
`Union[SFTDataConfig, GrpoConfig]`. -/
inductive TrainPolicy where
  | sft (c : SFTDataConfig)
  | grpo (c : GrpoConfig)
deriving DecidableEq, Repr

/-- `TrainingConfig`. -/
structure TrainingConfig where
  train_policy : TrainPolicy := .sft {}
  ckpt : CheckpointConfig := {}
  resume : BoolOrStr := .b false
  epoch : Int := 1
  output_dir : String := "./outputs"
  timestamp : String := ""
  epsilon : PyFloat := ⟨"1e-06"⟩
  optm_name : String := "AdamW"
  optm_lr : PyFloat := ⟨"1e-06"⟩
  optm_impl : String := "fused"
  optm_weight_decay : PyFloat := ⟨"0.0"⟩
  optm_betas : PyFloat × PyFloat := (⟨"0.9"⟩, ⟨"0.999"⟩)
  optm_warmup_steps : Int := 20
  optm_grad_norm_clip : PyFloat := ⟨"1.0"⟩
  async_tp_enabled : Bool := false
  compile : Bool := true
  param_dtype : String := "bfloat16"
  fsdp_reduce_dtype : String := "float32"
  fsdp_offload : Bool := false
  fsdp_reshard_after_forward : String := "default"
  train_batch_per_replica : Int := 8
  sync_weight_interval : Int := 1
deriving DecidableEq, Repr

/-- `ParallelismConfig`.  `RolloutParallelismConfig` redeclares the same
fields with the same default values (only UI visibility differs), so it
shares this structure. -/
structure ParallelismConfig where
  n_init_replicas : Int := 1
  tp_size : Int := 2
  cp_size : Int := 1
  dp_shard_size : Int := -1
  pp_size : Int := 1
  pp_micro_batch_size : Int := 1
  dp_replicate_size : Int := 1
  cp_rotate_method : String := "allgather"
deriving DecidableEq, Repr

/-- `PolicyConfig`. -/
structure PolicyConfig where
  parallelism : ParallelismConfig := {}
  model_name_or_path : String := "Qwen/Qwen2.5-VL-7B-Instruct"
  model_max_length : Int := 4096
  model_gradient_checkpointing : Bool := true
deriving DecidableEq, Repr

/-- `SamplingConfig`. -/
structure SamplingConfig where
  temperature : PyFloat := ⟨"0.9"⟩
  top_p : PyFloat := ⟨"1.0"⟩
  top_k : Int := 10
  repetition_penalty : PyFloat := ⟨"1.0"⟩
deriving DecidableEq, Repr

/-- `RolloutConfig`. -/
structure RolloutConfig where
  parallelism : ParallelismConfig := {}
  gpu_memory_utilization : PyFloat := ⟨"0.8"⟩
  enable_chunked_prefill : Bool := false
  max_response_length : Int := 2048
  n_generation : Int := 16
  batch_size : Int := 1
  quantization : String := "none"
  seed : Int := 42
  sampling_config : SamplingConfig := {}
deriving DecidableEq, Repr

/-- `LoggingConfig` (`experiment_name` has Python default `None`). -/
structure LoggingConfig where
  enable_logging : Bool := false
  project_name : String := "cosmos_reason1"
  experiment_name : Option String := none
  report_mfu : Bool := false
deriving DecidableEq, Repr

/-- The root `Config` dataclass. -/
structure Config where
  train : TrainingConfig := {}
  rollout : RolloutConfig := {}
  policy : PolicyConfig := {}
  logging : LoggingConfig := {}
  profiler : ProfilerConfig := {}
  redis : String := ""
  eth_ips : String := ""
deriving DecidableEq, Repr

/-- The freshly defaulted tree `Config()`. -/
def defaultConfig : Config := {}

/-! ### Constructor (`__post_init__`) checks -/

/-- `SFTDataConfig.__post_init__`: non-positive `dataloader_num_workers`
clears the prefetch factor. -/
def SFTDataConfig.postInit (c : SFTDataConfig) : SFTDataConfig :=
  if c.dataloader_num_workers ≤ 0 then
    { c with dataloader_prefetch_factor := none, dataloader_num_workers := 0 }
  else c

/-- `GrpoConfig.__post_init__`: asserts the variant choice, then clears
the prefetch factor for non-positive `dataloader_num_workers`. -/
def GrpoConfig.postInit (c : GrpoConfig) : Except CfgErr GrpoConfig :=
  if c.variant = "grpo" ∨ c.variant = "dapo" then
    .ok (if c.dataloader_num_workers ≤ 0 then
      { c with dataloader_prefetch_factor := none, dataloader_num_workers := 0 }
    else c)
  else .error (.validationError "variant must be one of ['grpo', 'dapo']")

/-- `CheckpointConfig.__post_init__`: rejects a save mode outside
`async`/`sync`, then a non-positive save frequency (both `ValueError`s,
mapped to the spec's `ValidationError`). -/
def CheckpointConfig.postInit (c : CheckpointConfig) :
    Except CfgErr CheckpointConfig :=
  if ¬ (c.save_mode = "async" ∨ c.save_mode = "sync") then
    .error (.validationError
      "Invalid save_mode: must be one of ['async', 'sync']")
  else if c.save_freq ≤ 0 then
    .error (.validationError "save_freq must be greater than 0")
  else .ok c

/-- `TrainingConfig.__post_init__`: re-runs the checkpoint constructor
check, then rejects `async_tp_enabled` without `compile`
(`IncompatibleOptionsError` in the spec's taxonomy). -/
def TrainingConfig.postInit (c : TrainingConfig) :
    Except CfgErr TrainingConfig :=
  match c.ckpt.postInit with
  | .error e => .error e
  | .ok _ =>
      if c.async_tp_enabled ∧ ¬ c.compile then
        .error (.incompatibleOptionsError
          "Async tensor parallelism requires torch.compile to be enabled")
      else .ok c

/-! ### The validator (`Config.validate`)

`Config.validate` is a single method; it is embedded as a sequence of
named stages in the source's statement order so that individual rules
can be reasoned about.  Python `assert` failures become
`CfgErr.validationError`. -/

/-- Python truthiness of a `Union[bool, str]` value. -/
def truthyBS : BoolOrStr → Bool
  | .b b => b
  | .s "" => false
  | .s _ => true

/-- The `.type` attribute of the active training-policy variant. -/
def TrainPolicy.typeStr : TrainPolicy → String
  | .sft p => p.type
  | .grpo g => g.type

/-- `assert model_name_or_path is not None and model_name_or_path != ""`. -/
def checkModel (c : Config) : Except CfgErr Unit :=
  if c.policy.model_name_or_path = "" then
    .error (.validationError "model_name_or_path is required")
  else .ok ()

/-- The five parallelism-degree asserts of `Config.validate`, in source
order: `tp_size`, `cp_size`, `pp_size`, `dp_shard_size`,
`dp_replicate_size`. -/
def checkParBasic (p : ParallelismConfig) : Except CfgErr Unit :=
  if ¬ (0 < p.tp_size) then
    .error (.validationError "tp_size must be greater than 0")
  else if ¬ (0 < p.cp_size) then
    .error (.validationError "cp_size must be greater than 0")
  else if ¬ (0 < p.pp_size) then
    .error (.validationError "pp_size must be greater than 0")
  else if ¬ (-1 ≤ p.dp_shard_size ∧ p.dp_shard_size ≠ 0) then
    .error (.validationError
      "dp_shard_size must be greater than 0 or -1 to be auto-inferred")
  else if ¬ (p.dp_replicate_size = 1) then
    .error (.validationError
      "dp_replicate_size must be 1 for dynamic scaling purpose")
  else .ok ()

/-- The pipeline-parallel block of `Config.validate`, guarded by
`pp_size > 1`.  Python `%` is `Int.fmod` and `//` is `Int.fdiv`. -/
def checkPipeline (c : Config) : Except CfgErr Unit :=
  if 1 < c.policy.parallelism.pp_size then
    if ¬ (0 < c.policy.parallelism.pp_micro_batch_size) then
      .error (.validationError "pp_micro_batch_size must be greater than 0")
    else if ¬ (c.train.train_batch_per_replica.fmod
        c.policy.parallelism.pp_micro_batch_size = 0) then
      .error (.validationError
        "train_batch must be divisible by pp_micro_batch_size")
    else if ¬ ((c.train.train_batch_per_replica.fdiv
        c.policy.parallelism.pp_micro_batch_size).fmod
        c.policy.parallelism.pp_size = 0) then
      .error (.validationError
        "train_batch / pp_micro_batch_size must be divisible by pp_size")
    else .ok ()
  else .ok ()

/-- The reinforcement-variant block of `Config.validate`: guarded by
`train_policy.type == "grpo"`; normalizes a bare-string
`reward_function` into a one-element list and asserts the list is
non-empty.  On a supervised-shaped policy whose `type` string is
`"grpo"`, the attribute access raises `AttributeError`. -/
def checkReward (tp : TrainPolicy) : Except CfgErr TrainPolicy :=
  if tp.typeStr = "grpo" then
    match tp with
    | .grpo g =>
        let rf : List String :=
          match g.reward_function with
          | .s s => [s]
          | .l xs => xs
        if 0 < rf.length then .ok (.grpo { g with reward_function := .l rf })
        else .error (.validationError
          "reward_function must be a list of reward functions")
    | .sft _ => .error (.attributeError "reward_function")
  else .ok tp

/-- The `dataset_train_split` normalization of `Config.validate`: a bare
string becomes a one-element list. -/
def normalizeSplit : TrainPolicy → TrainPolicy
  | .sft p =>
      match p.dataset_train_split with
      | .s s => .sft { p with dataset_train_split := .l [s] }
      | .l _ => .sft p
  | .grpo g =>
      match g.dataset_train_split with
      | .s s => .grpo { g with dataset_train_split := .l [s] }
      | .l _ => .grpo g

/-- The `upload_s3` check of `Config.validate`: a truthy value must be
exactly `"final"` or `"all"` (a `ValueError`, `InvalidChoiceError` in
the spec's taxonomy). -/
def checkUpload (u : BoolOrStr) : Except CfgErr Unit :=
  if truthyBS u then
    if u = .s "final" ∨ u = .s "all" then .ok ()
    else .error (.invalidChoiceError
      "upload_s3 must be one of ['final', 'all'] or False")
  else .ok ()

/-- `Config.validate`, in source statement order.  The source mutates
`self` when normalizing `reward_function` and `dataset_train_split`; the
embedding returns the updated tree. -/
def Config.validate (c : Config) : Except CfgErr Config :=
  match checkModel c with
  | .error e => .error e
  | .ok _ =>
  match checkParBasic c.policy.parallelism with
  | .error e => .error e
  | .ok _ =>
  match checkPipeline c with
  | .error e => .error e
  | .ok _ =>
  match checkReward c.train.train_policy with
  | .error e => .error e
  | .ok tp =>
  match checkUpload c.train.ckpt.upload_s3 with
  | .error e => .error e
  | .ok _ => .ok { c with train.train_policy := normalizeSplit tp }

/-! ### Timestamp synthesis and variant resolution (`Config.from_dict`) -/

/-- The wall-clock instant read by `datetime.now()`; an external effect,
passed to `Config.from_dict` explicitly. -/
structure PyDateTime where
  year : Nat := 2025
  month : Nat := 1
  day : Nat := 1
  hour : Nat := 0
  minute : Nat := 0
  second : Nat := 0
deriving DecidableEq, Repr

/-- A zero-padded decimal field of an `strftime` format. -/
def padNum (w n : Nat) : String :=
  ⟨List.replicate (w - (toString n).length) '0' ++ (toString n).data⟩

/-- `datetime.now().strftime("%Y%m%d%H%M%S")`: the sortable 14-digit
timestamp string. -/
def strftime14 (t : PyDateTime) : String :=
  padNum 4 t.year ++ padNum 2 t.month ++ padNum 2 t.day ++
    padNum 2 t.hour ++ padNum 2 t.minute ++ padNum 2 t.second

/-- `os.path.join` for two components (POSIX semantics). -/
def ospathjoin (a b : String) : String :=
  if b.startsWith "/" then b
  else if a = "" ∨ a.endsWith "/" then a ++ b
  else a ++ "/" ++ b

/-- The timestamp-synthesis block at the top of `Config.from_dict`: if
the raw mapping has a `train` section whose `timestamp` key is absent or
`""`, writes the synthesized timestamp into the mapping and rewrites the
mapping's `output_dir` to `os.path.join(output_dir, timestamp)` —
reading `output_dir` from the mapping itself, so a missing `output_dir`
raises `KeyError`.  Returns the (possibly mutated) mapping and the
exception, if one was raised. -/
def stampTrain (now : PyDateTime) (d : PyDict) : PyDict × Option CfgErr :=
  match d.find "train" with
  | none => (d, none)
  | some (.vdict t) =>
      let needs : Bool :=
        match PyDict.find t "timestamp" with
        | none => true
        | some v => v.isEmptyStr
      if needs then
        let ts := strftime14 now
        let t1 := PyDict.set t "timestamp" (.vstr ts)
        match PyDict.find t1 "output_dir" with
        | none => (d.set "train" (.vdict t1), some (.keyError "output_dir"))
        | some (.vstr o) =>
            let t2 := PyDict.set t1 "output_dir" (.vstr (ospathjoin o ts))
            (d.set "train" (.vdict t2), none)
        | some _ =>
            (d.set "train" (.vdict t1),
             some (.pyTypeError "os.path.join: expected str"))
      else (d, none)
  | some _ => (d, some (.pyTypeError "train section is not a mapping"))

/-- Python `k in v` for the container shapes `in` accepts: key lookup in
a dict, substring test in a string, membership in a list; `TypeError`
otherwise. -/
def pyIn (k : String) (v : PyVal) : Except CfgErr Bool :=
  match v with
  | .vdict es => .ok (PyDict.find es k).isSome
  | .vstr s => .ok (decide (k.data <:+: s.data))
  | .vlist xs =>
      .ok (xs.any fun x =>
        match x with
        | .vstr s => s == k
        | _ => false)
  | _ => .error (.pyTypeError "argument is not iterable")

/-- Short-circuiting `any(key in v for key in ks)`. -/
def pyAnyKey (ks : List String) (v : PyVal) : Except CfgErr Bool :=
  match ks with
  | [] => .ok false
  | k :: rest => do
      let b ← pyIn k v
      if b then .ok true else pyAnyKey rest v

/-- The train-policy variant resolution of `Config.from_dict` (run after
the timestamp block, on the possibly mutated mapping): if the
`train.train_policy` sub-mapping mentions any key of the discriminator
set, a default `GrpoConfig` is installed, otherwise a default
`SFTDataConfig`. -/
def resolvePolicy (cfg : Config) (d : PyDict) : Except CfgErr Config :=
  match d.find "train" with
  | some (.vdict t) =>
      match PyDict.find t "train_policy" with
      | some tData => do
          let hit ← pyAnyKey
            ["temperature", "epsilon_low", "epsilon_high", "kl_beta"] tData
          if hit then .ok { cfg with train.train_policy := .grpo {} }
          else .ok { cfg with train.train_policy := .sft {} }
      | none => .ok cfg
  | _ => .ok cfg

/-! ### The deep merge (`update_dataclass_with_dict`)

The merge routine is imported from `cosmos_reason1.utils.util`, which is
not part of this source unit.  It is modelled from the spec (section
4.3): every leaf present in the override replaces the current value,
every absent leaf keeps its value, nested sections merge recursively, a
value not coercible to the declared field type fails with
`TypeMismatchError`, and unrecognized top-level sections are rejected
(section 6).  Keys inside a section that match no declared field are
ignored; constructor checks are not re-run by the merge. -/

/-- Merge an `int` field. -/
def mInt (d : PyDict) (k : String) (cur : Int) : Except CfgErr Int :=
  match d.find k with
  | none => .ok cur
  | some (.vint n) => .ok n
  | some _ => .error (.typeMismatchError k)

/-- Merge a `str` field. -/
def mStr (d : PyDict) (k : String) (cur : String) : Except CfgErr String :=
  match d.find k with
  | none => .ok cur
  | some (.vstr s) => .ok s
  | some _ => .error (.typeMismatchError k)

/-- Merge a `bool` field. -/
def mBool (d : PyDict) (k : String) (cur : Bool) : Except CfgErr Bool :=
  match d.find k with
  | none => .ok cur
  | some (.vbool b) => .ok b
  | some _ => .error (.typeMismatchError k)

/-- Merge a `float` field (an integer override is coercible). -/
def mFloat (d : PyDict) (k : String) (cur : PyFloat) : Except CfgErr PyFloat :=
  match d.find k with
  | none => .ok cur
  | some (.vfloat f) => .ok f
  | some (.vint n) => .ok ⟨toString n⟩
  | some _ => .error (.typeMismatchError k)

/-- Merge an `Optional[str]` field. -/
def mOptStr (d : PyDict) (k : String) (cur : Option String) :
    Except CfgErr (Option String) :=
  match d.find k with
  | none => .ok cur
  | some .vnone => .ok none
  | some (.vstr s) => .ok (some s)
  | some _ => .error (.typeMismatchError k)

/-- Merge an `Optional[int]` field. -/
def mOptInt (d : PyDict) (k : String) (cur : Option Int) :
    Except CfgErr (Option Int) :=
  match d.find k with
  | none => .ok cur
  | some .vnone => .ok none
  | some (.vint n) => .ok (some n)
  | some _ => .error (.typeMismatchError k)

/-- Merge a `Union[bool, str]` field. -/
def mBoolOrStr (d : PyDict) (k : String) (cur : BoolOrStr) :
    Except CfgErr BoolOrStr :=
  match d.find k with
  | none => .ok cur
  | some (.vbool b) => .ok (.b b)
  | some (.vstr s) => .ok (.s s)
  | some _ => .error (.typeMismatchError k)

/-- Coerce a list of values to strings. -/
def vStrs (k : String) (xs : List PyVal) : Except CfgErr (List String) :=
  xs.mapM fun v =>
    match v with
    | .vstr s => .ok s
    | _ => .error (.typeMismatchError k)

/-- Merge a `Union[str, List[str]]` field (a bare scalar or a sequence
is accepted uniformly). -/
def mStrOrList (d : PyDict) (k : String) (cur : StrOrList) :
    Except CfgErr StrOrList :=
  match d.find k with
  | none => .ok cur
  | some (.vstr s) => .ok (.s s)
  | some (.vlist xs) => do
      let ss ← vStrs k xs
      .ok (.l ss)
  | some _ => .error (.typeMismatchError k)

/-- Merge a `Union[float, int]` field. -/
def mFloatOrInt (d : PyDict) (k : String) (cur : FloatOrInt) :
    Except CfgErr FloatOrInt :=
  match d.find k with
  | none => .ok cur
  | some (.vfloat f) => .ok (.f f)
  | some (.vint n) => .ok (.i n)
  | some _ => .error (.typeMismatchError k)

/-- Merge a `List[int]` field. -/
def mListInt (d : PyDict) (k : String) (cur : List Int) :
    Except CfgErr (List Int) :=
  match d.find k with
  | none => .ok cur
  | some (.vlist xs) => do
      let ns ← xs.mapM fun v =>
        match v with
        | .vint n => Except.ok n
        | _ => Except.error (CfgErr.typeMismatchError k)
      .ok ns
  | some _ => .error (.typeMismatchError k)

/-- Merge a `tuple[float, float]` field. -/
def mPairFloat (d : PyDict) (k : String) (cur : PyFloat × PyFloat) :
    Except CfgErr (PyFloat × PyFloat) :=
  match d.find k with
  | none => .ok cur
  | some (.vlist [.vfloat a, .vfloat b]) => .ok (a, b)
  | some _ => .error (.typeMismatchError k)

/-- Merge a nested-record field through its own merge function. -/
def mNested {α : Type} (d : PyDict) (k : String) (cur : α)
    (f : PyDict → α → Except CfgErr α) : Except CfgErr α :=
  match d.find k with
  | none => .ok cur
  | some (.vdict sd) => f sd cur
  | some _ => .error (.typeMismatchError k)

/-- Modelled from the spec: the field-wise merge of a `train_policy`
override into the supervised variant (`update_dataclass_with_dict` is
not part of this source unit). -/
def mergeSFT (d : PyDict) (c : SFTDataConfig) : Except CfgErr SFTDataConfig := do
  let type ← mStr d "type" c.type
  let dataset_name ← mStr d "dataset_name" c.dataset_name
  let dataset_subset ← mOptStr d "dataset_subset" c.dataset_subset
  let dataset_revision ← mOptStr d "dataset_revision" c.dataset_revision
  let dataset_train_split ← mStrOrList d "dataset_train_split" c.dataset_train_split
  let dataset_test_split ← mStr d "dataset_test_split" c.dataset_test_split
  let dataset_test_size ← mFloatOrInt d "dataset_test_size" c.dataset_test_size
  let enable_dataset_preprocess ← mBool d "enable_dataset_preprocess" c.enable_dataset_preprocess
  let enable_dataset_cache ← mBool d "enable_dataset_cache" c.enable_dataset_cache
  let dataloader_num_workers ← mInt d "dataloader_num_workers" c.dataloader_num_workers
  let dataloader_prefetch_factor ← mOptInt d "dataloader_prefetch_factor" c.dataloader_prefetch_factor
  let enable_validation ← mBool d "enable_validation" c.enable_validation
  let validation_freq ← mInt d "validation_freq" c.validation_freq
  let validation_batch_per_replica ← mInt d "validation_batch_per_replica" c.validation_batch_per_replica
  let conversation_column_name ← mStr d "conversation_column_name" c.conversation_column_name
  let system_prompt ← mStr d "system_prompt" c.system_prompt
  let max_pixels ← mInt d "max_pixels" c.max_pixels
  let fps ← mInt d "fps" c.fps
  let vision_asset_column_name ← mStr d "vision_asset_column_name" c.vision_asset_column_name
  .ok { type, dataset_name, dataset_subset, dataset_revision,
        dataset_train_split, dataset_test_split, dataset_test_size,
        enable_dataset_preprocess, enable_dataset_cache,
        dataloader_num_workers, dataloader_prefetch_factor,
        enable_validation, validation_freq, validation_batch_per_replica,
        conversation_column_name, system_prompt, max_pixels, fps,
        vision_asset_column_name }

/-- Modelled from the spec: merge into `OverlongRewardConfig`. -/
def mergeOverlong (d : PyDict) (c : OverlongRewardConfig) :
    Except CfgErr OverlongRewardConfig := do
  let enable_overlong_penalty ← mBool d "enable_overlong_penalty" c.enable_overlong_penalty
  let buffer_length ← mInt d "buffer_length" c.buffer_length
  let penalty_factor ← mFloat d "penalty_factor" c.penalty_factor
  .ok { enable_overlong_penalty, buffer_length, penalty_factor }

/-- Modelled from the spec: the field-wise merge of a `train_policy`
override into the reinforcement variant. -/
def mergeGrpo (d : PyDict) (c : GrpoConfig) : Except CfgErr GrpoConfig := do
  let type ← mStr d "type" c.type
  let variant ← mStr d "variant" c.variant
  let dataset_name ← mStr d "dataset_name" c.dataset_name
  let dataset_subset ← mOptStr d "dataset_subset" c.dataset_subset
  let dataset_revision ← mOptStr d "dataset_revision" c.dataset_revision
  let dataset_train_split ← mStrOrList d "dataset_train_split" c.dataset_train_split
  let enable_dataset_preprocess ← mBool d "enable_dataset_preprocess" c.enable_dataset_preprocess
  let enable_dataset_cache ← mBool d "enable_dataset_cache" c.enable_dataset_cache
  let dataloader_num_workers ← mInt d "dataloader_num_workers" c.dataloader_num_workers
  let dataloader_prefetch_factor ← mOptInt d "dataloader_prefetch_factor" c.dataloader_prefetch_factor
  let prompt_column_name ← mStr d "prompt_column_name" c.prompt_column_name
  let choices_column_name ← mStr d "choices_column_name" c.choices_column_name
  let response_column_name ← mStr d "response_column_name" c.response_column_name
  let system_prompt ← mStr d "system_prompt" c.system_prompt
  let max_pixels ← mInt d "max_pixels" c.max_pixels
  let fps ← mInt d "fps" c.fps
  let vision_asset_column_name ← mStr d "vision_asset_column_name" c.vision_asset_column_name
  let reward_function ← mStrOrList d "reward_function" c.reward_function
  let temperature ← mFloat d "temperature" c.temperature
  let epsilon_low ← mFloat d "epsilon_low" c.epsilon_low
  let epsilon_high ← mFloat d "epsilon_high" c.epsilon_high
  let overlong_reward ← mNested d "overlong_reward" c.overlong_reward mergeOverlong
  let kl_beta ← mFloat d "kl_beta" c.kl_beta
  let mu_iterations ← mInt d "mu_iterations" c.mu_iterations
  let mini_batch ← mInt d "mini_batch" c.mini_batch
  let allowed_outdated_steps ← mInt d "allowed_outdated_steps" c.allowed_outdated_steps
  .ok { type, variant, dataset_name, dataset_subset, dataset_revision,
        dataset_train_split, enable_dataset_preprocess,
        enable_dataset_cache, dataloader_num_workers,
        dataloader_prefetch_factor, prompt_column_name,
        choices_column_name, response_column_name, system_prompt,
        max_pixels, fps, vision_asset_column_name, reward_function,
        temperature, epsilon_low, epsilon_high, overlong_reward, kl_beta,
        mu_iterations, mini_batch, allowed_outdated_steps }

/-- Modelled from the spec: merge into the active training-policy
variant; the variant shape itself was fixed by `resolvePolicy`. -/
def mergeTrainPolicy (d : PyDict) (tp : TrainPolicy) :
    Except CfgErr TrainPolicy :=
  match tp with
  | .sft p => do
      let p' ← mergeSFT d p
      .ok (.sft p')
  | .grpo g => do
      let g' ← mergeGrpo d g
      .ok (.grpo g')

/-- Modelled from the spec: merge into `CheckpointConfig`. -/
def mergeCheckpoint (d : PyDict) (c : CheckpointConfig) :
    Except CfgErr CheckpointConfig := do
  let enable_checkpoint ← mBool d "enable_checkpoint" c.enable_checkpoint
  let save_freq ← mInt d "save_freq" c.save_freq
  let save_mode ← mStr d "save_mode" c.save_mode
  let max_keep ← mInt d "max_keep" c.max_keep
  let export_safetensors ← mBool d "export_safetensors" c.export_safetensors
  let upload_hf ← mBool d "upload_hf" c.upload_hf
  let hf_repo_name ← mStr d "hf_repo_name" c.hf_repo_name
  let upload_s3 ← mBoolOrStr d "upload_s3" c.upload_s3
  let s3_bucket ← mStr d "s3_bucket" c.s3_bucket
  let s3p ← mStr d "s3_prefix" c.s3_prefix_
  .ok { enable_checkpoint, save_freq, save_mode, max_keep,
        export_safetensors, upload_hf, hf_repo_name, upload_s3,
        s3_bucket, s3_prefix_ := s3p }

/-- Modelled from the spec: merge into `ParallelismConfig`. -/
def mergeParallelism (d : PyDict) (c : ParallelismConfig) :
    Except CfgErr ParallelismConfig := do
  let n_init_replicas ← mInt d "n_init_replicas" c.n_init_replicas
  let tp_size ← mInt d "tp_size" c.tp_size
  let cp_size ← mInt d "cp_size" c.cp_size
  let dp_shard_size ← mInt d "dp_shard_size" c.dp_shard_size
  let pp_size ← mInt d "pp_size" c.pp_size
  let pp_micro_batch_size ← mInt d "pp_micro_batch_size" c.pp_micro_batch_size
  let dp_replicate_size ← mInt d "dp_replicate_size" c.dp_replicate_size
  let cp_rotate_method ← mStr d "cp_rotate_method" c.cp_rotate_method
  .ok { n_init_replicas, tp_size, cp_size, dp_shard_size, pp_size,
        pp_micro_batch_size, dp_replicate_size, cp_rotate_method }

/-- Modelled from the spec: merge into `TrainingConfig`. -/
def mergeTraining (d : PyDict) (c : TrainingConfig) :
    Except CfgErr TrainingConfig := do
  let train_policy ←
    match PyDict.find d "train_policy" with
    | none => Except.ok c.train_policy
    | some (.vdict td) => mergeTrainPolicy td c.train_policy
    | some _ => Except.error (CfgErr.typeMismatchError "train_policy")
  let ckpt ← mNested d "ckpt" c.ckpt mergeCheckpoint
  let resume ← mBoolOrStr d "resume" c.resume
  let epoch ← mInt d "epoch" c.epoch
  let output_dir ← mStr d "output_dir" c.output_dir
  let timestamp ← mStr d "timestamp" c.timestamp
  let epsilon ← mFloat d "epsilon" c.epsilon
  let optm_name ← mStr d "optm_name" c.optm_name
  let optm_lr ← mFloat d "optm_lr" c.optm_lr
  let optm_impl ← mStr d "optm_impl" c.optm_impl
  let optm_weight_decay ← mFloat d "optm_weight_decay" c.optm_weight_decay
  let optm_betas ← mPairFloat d "optm_betas" c.optm_betas
  let optm_warmup_steps ← mInt d "optm_warmup_steps" c.optm_warmup_steps
  let optm_grad_norm_clip ← mFloat d "optm_grad_norm_clip" c.optm_grad_norm_clip
  let async_tp_enabled ← mBool d "async_tp_enabled" c.async_tp_enabled
  let compile ← mBool d "compile" c.compile
  let param_dtype ← mStr d "param_dtype" c.param_dtype
  let fsdp_reduce_dtype ← mStr d "fsdp_reduce_dtype" c.fsdp_reduce_dtype
  let fsdp_offload ← mBool d "fsdp_offload" c.fsdp_offload
  let fsdp_reshard_after_forward ← mStr d "fsdp_reshard_after_forward" c.fsdp_reshard_after_forward
  let train_batch_per_replica ← mInt d "train_batch_per_replica" c.train_batch_per_replica
  let sync_weight_interval ← mInt d "sync_weight_interval" c.sync_weight_interval
  .ok { train_policy, ckpt, resume, epoch, output_dir, timestamp,
        epsilon, optm_name, optm_lr, optm_impl, optm_weight_decay,
        optm_betas, optm_warmup_steps, optm_grad_norm_clip,
        async_tp_enabled, compile, param_dtype, fsdp_reduce_dtype,
        fsdp_offload, fsdp_reshard_after_forward,
        train_batch_per_replica, sync_weight_interval }

/-- Modelled from the spec: merge into `PolicyConfig`. -/
def mergePolicyCfg (d : PyDict) (c : PolicyConfig) :
    Except CfgErr PolicyConfig := do
  let parallelism ← mNested d "parallelism" c.parallelism mergeParallelism
  let model_name_or_path ← mStr d "model_name_or_path" c.model_name_or_path
  let model_max_length ← mInt d "model_max_length" c.model_max_length
  let model_gradient_checkpointing ← mBool d "model_gradient_checkpointing" c.model_gradient_checkpointing
  .ok { parallelism, model_name_or_path, model_max_length,
        model_gradient_checkpointing }

/-- Modelled from the spec: merge into `SamplingConfig`. -/
def mergeSampling (d : PyDict) (c : SamplingConfig) :
    Except CfgErr SamplingConfig := do
  let temperature ← mFloat d "temperature" c.temperature
  let top_p ← mFloat d "top_p" c.top_p
  let top_k ← mInt d "top_k" c.top_k
  let repetition_penalty ← mFloat d "repetition_penalty" c.repetition_penalty
  .ok { temperature, top_p, top_k, repetition_penalty }

/-- Modelled from the spec: merge into `RolloutConfig`. -/
def mergeRollout (d : PyDict) (c : RolloutConfig) :
    Except CfgErr RolloutConfig := do
  let parallelism ← mNested d "parallelism" c.parallelism mergeParallelism
  let gpu_memory_utilization ← mFloat d "gpu_memory_utilization" c.gpu_memory_utilization
  let enable_chunked_prefill ← mBool d "enable_chunked_prefill" c.enable_chunked_prefill
  let max_response_length ← mInt d "max_response_length" c.max_response_length
  let n_generation ← mInt d "n_generation" c.n_generation
  let batch_size ← mInt d "batch_size" c.batch_size
  let quantization ← mStr d "quantization" c.quantization
  let seed ← mInt d "seed" c.seed
  let sampling_config ← mNested d "sampling_config" c.sampling_config mergeSampling
  .ok { parallelism, gpu_memory_utilization, enable_chunked_prefill,
        max_response_length, n_generation, batch_size, quantization,
        seed, sampling_config }

/-- Modelled from the spec: merge into `LoggingConfig`. -/
def mergeLogging (d : PyDict) (c : LoggingConfig) :
    Except CfgErr LoggingConfig := do
  let enable_logging ← mBool d "enable_logging" c.enable_logging
  let project_name ← mStr d "project_name" c.project_name
  let experiment_name ← mOptStr d "experiment_name" c.experiment_name
  let report_mfu ← mBool d "report_mfu" c.report_mfu
  .ok { enable_logging, project_name, experiment_name, report_mfu }

/-- Modelled from the spec: merge into `ProfilerConfig`. -/
def mergeProfiler (d : PyDict) (c : ProfilerConfig) :
    Except CfgErr ProfilerConfig := do
  let enable_profiler ← mBool d "enable_profiler" c.enable_profiler
  let active_steps ← mInt d "active_steps" c.active_steps
  let rank_filter ← mListInt d "rank_filter" c.rank_filter
  .ok { enable_profiler, active_steps, rank_filter }

/-- Modelled from the spec: `update_dataclass_with_dict(config,
config_data)` — overlays the override mapping onto the tree, rejecting
unrecognized top-level sections (spec section 6). -/
def update_dataclass_with_dict (c : Config) (d : PyDict) :
    Except CfgErr Config := do
  match d.find? (fun kv => !(["train", "rollout", "policy", "logging",
      "profiler", "redis", "eth_ips"].contains kv.1)) with
  | some kv => Except.error (CfgErr.unknownSectionError kv.1)
  | none =>
    let train ← mNested d "train" c.train mergeTraining
    let rollout ← mNested d "rollout" c.rollout mergeRollout
    let policy ← mNested d "policy" c.policy mergePolicyCfg
    let logging ← mNested d "logging" c.logging mergeLogging
    let profiler ← mNested d "profiler" c.profiler mergeProfiler
    let redis ← mStr d "redis" c.redis
    let eth_ips ← mStr d "eth_ips" c.eth_ips
    .ok { train, rollout, policy, logging, profiler, redis, eth_ips }

/-- `Config.from_dict`: constructs the default tree, runs the
timestamp-synthesis block (which mutates the caller's mapping), resolves
the training-policy variant, overlays the mapping onto the tree, and
validates.  Returns the mapping in its final (possibly mutated) state
together with the result, mirroring the in-place mutation of the
caller's dict. -/
def Config.from_dict (now : PyDateTime) (config_data : PyDict) :
    PyDict × Except CfgErr Config :=
  match stampTrain now config_data with
  | (d1, some e) => (d1, .error e)
  | (d1, none) =>
      match resolvePolicy defaultConfig d1 with
      | .error e => (d1, .error e)
      | .ok cfg1 =>
          match update_dataclass_with_dict cfg1 d1 with
          | .error e => (d1, .error e)
          | .ok cfg2 =>
              match cfg2.validate with
              | .error e => (d1, .error e)
              | .ok cfg3 => (d1, .ok cfg3)

/-! ### Helper lemmas -/

theorem padNum_length (w n : Nat) :
    (padNum w n).length = (w - (toString n).length) + (toString n).length := by
  show (List.replicate (w - (toString n).length) '0' ++
    (toString n).data).length = _
  rw [List.length_append, List.length_replicate]
  rfl

/-- The synthesized timestamp string is never empty. -/
theorem strftime14_ne_empty (t : PyDateTime) : strftime14 t ≠ "" := by
  intro h
  have hlen := congrArg String.length h
  rw [strftime14, String.length_append, String.length_append,
    String.length_append, String.length_append, String.length_append,
    padNum_length] at hlen
  have h0 : String.length "" = 0 := rfl
  omega

theorem except_ok_ne_error {α : Type} (a : α) (e : CfgErr) :
    (Except.ok a : Except CfgErr α) ≠ .error e := by
  intro h
  exact Except.noConfusion h

/-- Characterization of the five basic parallelism asserts. -/
theorem checkParBasic_ok_iff (p : ParallelismConfig) :
    checkParBasic p = .ok () ↔
      (0 < p.tp_size ∧ 0 < p.cp_size ∧ 0 < p.pp_size ∧
        (-1 ≤ p.dp_shard_size ∧ p.dp_shard_size ≠ 0) ∧
        p.dp_replicate_size = 1) := by
  unfold checkParBasic
  repeat' split
  all_goals simp_all

/-- A failing parallelism assert raises the spec's `ValidationError`. -/
theorem checkParBasic_error_shape (p : ParallelismConfig) (e : CfgErr)
    (h : checkParBasic p = .error e) : ∃ m, e = CfgErr.validationError m := by
  unfold checkParBasic at h
  repeat' split at h
  all_goals simp_all
  all_goals exact ⟨_, h.symm⟩

/-- Characterization of the pipeline-parallel block. -/
theorem checkPipeline_ok_iff (c : Config) :
    checkPipeline c = .ok () ↔
      (1 < c.policy.parallelism.pp_size →
        (0 < c.policy.parallelism.pp_micro_batch_size ∧
          c.train.train_batch_per_replica.fmod
            c.policy.parallelism.pp_micro_batch_size = 0 ∧
          (c.train.train_batch_per_replica.fdiv
            c.policy.parallelism.pp_micro_batch_size).fmod
            c.policy.parallelism.pp_size = 0)) := by
  unfold checkPipeline
  repeat' split
  all_goals simp_all

/-- A failing pipeline assert raises the spec's `ValidationError`. -/
theorem checkPipeline_error_shape (c : Config) (e : CfgErr)
    (h : checkPipeline c = .error e) : ∃ m, e = CfgErr.validationError m := by
  unfold checkPipeline at h
  repeat' split at h
  all_goals simp_all
  all_goals exact ⟨_, h.symm⟩

/-- `any(key in d for key in ks)` over a dict is a key-presence test. -/
theorem pyAnyKey_dict (ks : List String) (es : PyDict) :
    pyAnyKey ks (.vdict es) =
      .ok (ks.any fun k => (PyDict.find es k).isSome) := by
  induction ks with
  | nil => rfl
  | cons k rest ih =>
      show (do
        let b ← pyIn k (.vdict es)
        if b then Except.ok true else pyAnyKey rest (.vdict es)) = _
      rw [show pyIn k (.vdict es) = .ok (PyDict.find es k).isSome from rfl]
      cases hb : (PyDict.find es k).isSome <;>
        simp [List.any_cons, hb, ih, bind, Except.bind]

/-- Whether the active training-policy variant is the reinforcement one. -/
def TrainPolicy.isGrpo : TrainPolicy → Bool
  | .grpo _ => true
  | .sft _ => false

theorem checkReward_shape (tp tp' : TrainPolicy)
    (h : checkReward tp = .ok tp') : tp'.isGrpo = tp.isGrpo := by
  unfold checkReward at h
  split at h
  · split at h
    · dsimp only at h
      split at h
      · cases h
        rfl
      · exact Except.noConfusion h
    · exact Except.noConfusion h
  · cases h
    rfl

theorem normalizeSplit_shape (tp : TrainPolicy) :
    (normalizeSplit tp).isGrpo = tp.isGrpo := by
  cases tp with
  | sft p =>
      show (match p.dataset_train_split with
        | .s s => TrainPolicy.sft { p with dataset_train_split := .l [s] }
        | .l _ => .sft p).isGrpo = _
      cases p.dataset_train_split <;> rfl
  | grpo g =>
      show (match g.dataset_train_split with
        | .s s => TrainPolicy.grpo { g with dataset_train_split := .l [s] }
        | .l _ => .grpo g).isGrpo = _
      cases g.dataset_train_split <;> rfl

/-- A successful validation only rewrites the training policy: its
variant shape, the timestamp, the output directory and the whole policy
section are preserved. -/
theorem validate_ok_train (c c' : Config) (h : Config.validate c = .ok c') :
    c'.train.train_policy.isGrpo = c.train.train_policy.isGrpo ∧
      c'.train.timestamp = c.train.timestamp ∧
      c'.train.output_dir = c.train.output_dir := by
  unfold Config.validate at h
  repeat' split at h
  all_goals try exact Except.noConfusion h
  simp only [Except.ok.injEq] at h
  subst h
  refine ⟨?_, rfl, rfl⟩
  simp only [normalizeSplit_shape]
  exact checkReward_shape _ _ (by assumption)

/-- The variant-shape of the policy survives the field-wise merge. -/
theorem mergeTrainPolicy_shape (d : PyDict) (tp tp' : TrainPolicy)
    (h : mergeTrainPolicy d tp = .ok tp') : tp'.isGrpo = tp.isGrpo := by
  cases tp with
  | sft p =>
      unfold mergeTrainPolicy at h
      simp only [bind, Except.bind] at h
      split at h
      · exact Except.noConfusion h
      · simp only [Except.ok.injEq] at h
        subst h
        rfl
  | grpo g =>
      unfold mergeTrainPolicy at h
      simp only [bind, Except.bind] at h
      split at h
      · exact Except.noConfusion h
      · simp only [Except.ok.injEq] at h
        subst h
        rfl

/-- Projections of a successful `TrainingConfig` merge: the resolved
`timestamp`, `output_dir` and `train_policy` come from the corresponding
field merges. -/
theorem mergeTraining_fields (d : PyDict) (c c' : TrainingConfig)
    (h : mergeTraining d c = .ok c') :
    mStr d "timestamp" c.timestamp = .ok c'.timestamp ∧
      mStr d "output_dir" c.output_dir = .ok c'.output_dir ∧
      (match PyDict.find d "train_policy" with
        | none => Except.ok c.train_policy
        | some (.vdict td) => mergeTrainPolicy td c.train_policy
        | some _ => Except.error (CfgErr.typeMismatchError "train_policy")) =
        .ok c'.train_policy := by
  unfold mergeTraining at h
  simp only [bind, Except.bind] at h
  repeat' split at h
  all_goals first
    | (simp only [Except.ok.injEq] at h; subst h; simp_all)
    | exact Except.noConfusion h

/-- Projections of a successful top-level merge: each section comes from
its own section merge. -/
theorem update_fields (c c' : Config)
    (d : PyDict) (h : update_dataclass_with_dict c d = .ok c') :
    mNested d "train" c.train mergeTraining = .ok c'.train ∧
      mNested d "policy" c.policy mergePolicyCfg = .ok c'.policy := by
  unfold update_dataclass_with_dict at h
  simp only [bind, Except.bind] at h
  repeat' split at h
  all_goals first
    | (simp only [Except.ok.injEq] at h; subst h; simp_all)
    | exact Except.noConfusion h

/-- The variant-shape of the policy survives the whole merge. -/
theorem update_shape (c c' : Config) (d : PyDict)
    (h : update_dataclass_with_dict c d = .ok c') :
    c'.train.train_policy.isGrpo = c.train.train_policy.isGrpo := by
  have htr := (update_fields c c' d h).1
  unfold mNested at htr
  split at htr
  · simp only [Except.ok.injEq] at htr
    rw [← htr]
  · rename_i sd hsd
    have := (mergeTraining_fields _ _ _ htr).2.2
    split at this
    · simp only [Except.ok.injEq] at this
      rw [← this]
    · exact mergeTrainPolicy_shape _ _ _ this
    · exact Except.noConfusion this
  · exact Except.noConfusion htr

theorem isEmptyStr_false_of_ne (s : String) (h : s ≠ "") :
    PyVal.isEmptyStr (.vstr s) = false := by
  unfold PyVal.isEmptyStr
  split
  · rename_i heq
    cases heq
    exact absurd rfl h
  · rfl

theorem stampTrain_no_train (now : PyDateTime) (d : PyDict)
    (h : PyDict.find d "train" = none) : stampTrain now d = (d, none) := by
  unfold stampTrain
  rw [h]

theorem stampTrain_skip (now : PyDateTime) (d t : PyDict) (v : PyVal)
    (ht : PyDict.find d "train" = some (.vdict t))
    (htv : PyDict.find t "timestamp" = some v)
    (hne : v.isEmptyStr = false) : stampTrain now d = (d, none) := by
  unfold stampTrain
  simp [ht, htv, hne]

theorem stampTrain_synth (now : PyDateTime) (d t : PyDict) (o : String)
    (ht : PyDict.find d "train" = some (.vdict t))
    (hts : PyDict.find t "timestamp" = none ∨
      PyDict.find t "timestamp" = some (.vstr ""))
    (ho : PyDict.find t "output_dir" = some (.vstr o)) :
    stampTrain now d =
      (PyDict.set d "train" (.vdict
        (PyDict.set (PyDict.set t "timestamp" (.vstr (strftime14 now)))
          "output_dir" (.vstr (ospathjoin o (strftime14 now))))), none) := by
  have ho1 : PyDict.find
      (PyDict.set t "timestamp" (.vstr (strftime14 now))) "output_dir" =
      some (.vstr o) := by
    rw [PyDict.find_set_ne _ _ _ _ (by decide)]
    exact ho
  unfold stampTrain
  rcases hts with h1 | h1 <;> simp [ht, h1, ho1, PyVal.isEmptyStr]

theorem stampTrain_keyerr (now : PyDateTime) (d t : PyDict)
    (ht : PyDict.find d "train" = some (.vdict t))
    (hts : PyDict.find t "timestamp" = none ∨
      PyDict.find t "timestamp" = some (.vstr ""))
    (ho : PyDict.find t "output_dir" = none) :
    stampTrain now d =
      (PyDict.set d "train" (.vdict
        (PyDict.set t "timestamp" (.vstr (strftime14 now)))),
       some (.keyError "output_dir")) := by
  have ho1 : PyDict.find
      (PyDict.set t "timestamp" (.vstr (strftime14 now))) "output_dir" =
      none := by
    rw [PyDict.find_set_ne _ _ _ _ (by decide)]
    exact ho
  unfold stampTrain
  rcases hts with h1 | h1 <;> simp [ht, h1, ho1, PyVal.isEmptyStr]

/-- A mapping that just went through the timestamp block without an
exception passes through it unchanged on a second run: the timestamp,
once synthesized, is never resynthesized. -/
theorem stampTrain_idem (now now' : PyDateTime) (e e1 : PyDict)
    (h : stampTrain now e = (e1, none)) : stampTrain now' e1 = (e1, none) := by
  cases hf : PyDict.find e "train" with
  | none =>
      have h2 := (stampTrain_no_train now e hf).symm.trans h
      have h3 : e = e1 := congrArg Prod.fst h2
      subst h3
      exact stampTrain_no_train now' e hf
  | some tv =>
      cases tv with
      | vdict t =>
          unfold stampTrain at h
          simp only [hf] at h
          split at h
          · split at h
            · exact absurd (congrArg Prod.snd h) (by simp)
            · rename_i o hodir
              have he1 : e1 = PyDict.set e "train" (.vdict
                  (PyDict.set (PyDict.set t "timestamp"
                    (.vstr (strftime14 now))) "output_dir"
                    (.vstr (ospathjoin o (strftime14 now))))) :=
                (congrArg Prod.fst h).symm
              subst he1
              apply stampTrain_skip now' _ _ (.vstr (strftime14 now))
                (PyDict.find_set_self _ _ _)
              · rw [PyDict.find_set_ne _ _ _ _ (by decide)]
                exact PyDict.find_set_self _ _ _
              · exact isEmptyStr_false_of_ne _ (strftime14_ne_empty now)
            · exact absurd (congrArg Prod.snd h) (by simp)
          · have h3 : e = e1 := congrArg Prod.fst h
            subst h3
            rename_i hneeds
            cases hv : PyDict.find t "timestamp" with
            | none => rw [hv] at hneeds; exact absurd hneeds (by simp)
            | some v =>
                rw [hv] at hneeds
                exact stampTrain_skip now' e t v hf hv (by simpa using hneeds)
      | vnone => simp [stampTrain, hf] at h
      | vbool b => simp [stampTrain, hf] at h
      | vint n => simp [stampTrain, hf] at h
      | vfloat f => simp [stampTrain, hf] at h
      | vstr s => simp [stampTrain, hf] at h
      | vlist xs => simp [stampTrain, hf] at h
      | vset xs => simp [stampTrain, hf] at h
      | vobj fs => simp [stampTrain, hf] at h

theorem from_dict_stamp_err (now : PyDateTime) (d d1 : PyDict) (e : CfgErr)
    (hs : stampTrain now d = (d1, some e)) :
    Config.from_dict now d = (d1, .error e) := by
  unfold Config.from_dict
  rw [hs]

/-- Decomposition of a successful `from_dict` run into its stages. -/
theorem from_dict_ok_decompose (now : PyDateTime) (d d1 : PyDict)
    (c' : Config) (h : Config.from_dict now d = (d1, .ok c')) :
    stampTrain now d = (d1, none) ∧
      ∃ cfg1 cfg2, resolvePolicy defaultConfig d1 = .ok cfg1 ∧
        update_dataclass_with_dict cfg1 d1 = .ok cfg2 ∧
        Config.validate cfg2 = .ok c' := by
  unfold Config.from_dict at h
  rcases hs : stampTrain now d with ⟨da, oe⟩
  rw [hs] at h
  cases oe with
  | some e => exact absurd (congrArg Prod.snd h) (by simp)
  | none =>
      dsimp only at h
      rcases hr : resolvePolicy defaultConfig da with e | cfg1
      · rw [hr] at h
        exact absurd (congrArg Prod.snd h) (by simp)
      · rw [hr] at h
        dsimp only at h
        rcases hu : update_dataclass_with_dict cfg1 da with e | cfg2
        · rw [hu] at h
          exact absurd (congrArg Prod.snd h) (by simp)
        · rw [hu] at h
          dsimp only at h
          rcases hv : Config.validate cfg2 with e | cfg3
          · rw [hv] at h
            exact absurd (congrArg Prod.snd h) (by simp)
          · rw [hv] at h
            dsimp only at h
            have hd : da = d1 := congrArg Prod.fst h
            have hc : cfg3 = c' := by
              have h2 := congrArg Prod.snd h
              simpa using h2
            subst hd
            subst hc
            exact ⟨rfl, cfg1, cfg2, hr, hu, hv⟩

/-- Composition of a successful `from_dict` run from its stages. -/
theorem from_dict_ok_compose (now : PyDateTime) (d d1 : PyDict)
    (cfg1 cfg2 c' : Config) (hs : stampTrain now d = (d1, none))
    (hr : resolvePolicy defaultConfig d1 = .ok cfg1)
    (hu : update_dataclass_with_dict cfg1 d1 = .ok cfg2)
    (hv : Config.validate cfg2 = .ok c') :
    Config.from_dict now d = (d1, .ok c') := by
  unfold Config.from_dict
  rw [hs]
  dsimp only
  rw [hr]
  dsimp only
  rw [hu]
  dsimp only
  rw [hv]

theorem validate_eq_of_stages (c : Config) (tp : TrainPolicy)
    (hm : checkModel c = .ok ())
    (hp : checkParBasic c.policy.parallelism = .ok ())
    (hq : checkPipeline c = .ok ())
    (hr : checkReward c.train.train_policy = .ok tp)
    (hu : checkUpload c.train.ckpt.upload_s3 = .ok ()) :
    Config.validate c = .ok { c with train.train_policy := normalizeSplit tp } := by
  unfold Config.validate
  rw [hm]
  dsimp only
  rw [hp]
  dsimp only
  rw [hq]
  dsimp only
  rw [hr]
  dsimp only
  rw [hu]

theorem validate_err_par (c : Config) (e : CfgErr)
    (hm : checkModel c = .ok ())
    (hp : checkParBasic c.policy.parallelism = .error e) :
    Config.validate c = .error e := by
  unfold Config.validate
  rw [hm]
  dsimp only
  rw [hp]

theorem validate_err_pipe (c : Config) (e : CfgErr)
    (hm : checkModel c = .ok ())
    (hp : checkParBasic c.policy.parallelism = .ok ())
    (hq : checkPipeline c = .error e) :
    Config.validate c = .error e := by
  unfold Config.validate
  rw [hm]
  dsimp only
  rw [hp]
  dsimp only
  rw [hq]

theorem validate_err_reward (c : Config) (e : CfgErr)
    (hm : checkModel c = .ok ())
    (hp : checkParBasic c.policy.parallelism = .ok ())
    (hq : checkPipeline c = .ok ())
    (hr : checkReward c.train.train_policy = .error e) :
    Config.validate c = .error e := by
  unfold Config.validate
  rw [hm]
  dsimp only
  rw [hp]
  dsimp only
  rw [hq]
  dsimp only
  rw [hr]

theorem validate_err_upload (c : Config) (e : CfgErr) (tp : TrainPolicy)
    (hm : checkModel c = .ok ())
    (hp : checkParBasic c.policy.parallelism = .ok ())
    (hq : checkPipeline c = .ok ())
    (hr : checkReward c.train.train_policy = .ok tp)
    (hu : checkUpload c.train.ckpt.upload_s3 = .error e) :
    Config.validate c = .error e := by
  unfold Config.validate
  rw [hm]
  dsimp only
  rw [hp]
  dsimp only
  rw [hq]
  dsimp only
  rw [hr]
  dsimp only
  rw [hu]

/-- Decomposition of a successful validation into its stages. -/
theorem validate_ok_stages (c c₁ : Config) (h : Config.validate c = .ok c₁) :
    checkModel c = .ok () ∧ checkParBasic c.policy.parallelism = .ok () ∧
      checkPipeline c = .ok () ∧
      checkUpload c.train.ckpt.upload_s3 = .ok () ∧
      ∃ tp, checkReward c.train.train_policy = .ok tp ∧
        c₁ = { c with train.train_policy := normalizeSplit tp } := by
  unfold Config.validate at h
  rcases hm : checkModel c with e | u
  · rw [hm] at h
    exact Except.noConfusion h
  · cases u
    rw [hm] at h
    dsimp only at h
    rcases hp : checkParBasic c.policy.parallelism with e | u
    · rw [hp] at h
      exact Except.noConfusion h
    · cases u
      rw [hp] at h
      dsimp only at h
      rcases hq : checkPipeline c with e | u
      · rw [hq] at h
        exact Except.noConfusion h
      · cases u
        rw [hq] at h
        dsimp only at h
        rcases hr : checkReward c.train.train_policy with e | tp
        · rw [hr] at h
          exact Except.noConfusion h
        · rw [hr] at h
          dsimp only at h
          rcases hu : checkUpload c.train.ckpt.upload_s3 with e | u
          · rw [hu] at h
            exact Except.noConfusion h
          · cases u
            rw [hu] at h
            dsimp only at h
            simp only [Except.ok.injEq] at h
            exact ⟨rfl, rfl, rfl, rfl, tp, rfl, h.symm⟩

theorem mStr_found (d : PyDict) (k cur s : String)
    (h : PyDict.find d k = some (.vstr s)) : mStr d k cur = .ok s := by
  unfold mStr
  rw [h]

theorem mNested_found {α : Type} (d : PyDict) (k : String) (cur : α)
    (f : PyDict → α → Except CfgErr α) (sd : PyDict)
    (h : PyDict.find d k = some (.vdict sd)) :
    mNested d k cur f = f sd cur := by
  unfold mNested
  rw [h]

/-- The timestamp block preserves the `train_policy` entry of the train
section. -/
theorem stampTrain_preserves (now : PyDateTime) (e e1 t : PyDict)
    (h : stampTrain now e = (e1, none))
    (ht : PyDict.find e "train" = some (.vdict t)) :
    ∃ t', PyDict.find e1 "train" = some (.vdict t') ∧
      PyDict.find t' "train_policy" = PyDict.find t "train_policy" := by
  unfold stampTrain at h
  simp only [ht] at h
  split at h
  · split at h
    · exact absurd (congrArg Prod.snd h) (by simp)
    · rename_i o heqo
      have he1 : e1 = PyDict.set e "train" (.vdict
          (PyDict.set (PyDict.set t "timestamp" (.vstr (strftime14 now)))
            "output_dir" (.vstr (ospathjoin o (strftime14 now))))) :=
        (congrArg Prod.fst h).symm
      subst he1
      refine ⟨_, PyDict.find_set_self _ _ _, ?_⟩
      rw [PyDict.find_set_ne _ _ _ _ (by decide),
        PyDict.find_set_ne _ _ _ _ (by decide)]
    · exact absurd (congrArg Prod.snd h) (by simp)
  · have he1 : e = e1 := congrArg Prod.fst h
    subst he1
    exact ⟨t, ht, rfl⟩

/-- The mapping returned by `from_dict` is the one produced by the
timestamp block, whatever happens later. -/
theorem from_dict_fst (now : PyDateTime) (d : PyDict) :
    (Config.from_dict now d).1 = (stampTrain now d).1 := by
  unfold Config.from_dict
  rcases hs : stampTrain now d with ⟨da, oe⟩
  cases oe with
  | some e => rfl
  | none =>
      dsimp only
      rcases hr : resolvePolicy defaultConfig da with e | cfg1
      · simp only [hr]
      · simp only [hr]
        rcases hu : update_dataclass_with_dict cfg1 da with e | cfg2
        · simp only [hu]
        · simp only [hu]
          rcases hv : Config.validate cfg2 with e | cfg3
          · simp only [hv]
          · simp only [hv]

/-- The variant decision of `resolvePolicy` on a mapping whose
`train.train_policy` is a sub-mapping. -/
theorem resolvePolicy_eq (cfg : Config) (d t tpd : PyDict)
    (ht : PyDict.find d "train" = some (.vdict t))
    (htp : PyDict.find t "train_policy" = some (.vdict tpd)) :
    resolvePolicy cfg d = .ok
      (if (["temperature", "epsilon_low", "epsilon_high", "kl_beta"].any
          fun k => (PyDict.find tpd k).isSome) then
        { cfg with train.train_policy := .grpo {} }
      else { cfg with train.train_policy := .sft {} }) := by
  unfold resolvePolicy
  rw [ht]
  dsimp only
  rw [htp]
  dsimp only
  rw [pyAnyKey_dict]
  cases hb : (["temperature", "epsilon_low", "epsilon_high", "kl_beta"].any
      fun k => (PyDict.find tpd k).isSome) <;>
    simp [hb, bind, Except.bind]

theorem truthyBS_s_ne (s : String) (h : s ≠ "") : truthyBS (.s s) = true := by
  unfold truthyBS
  split
  all_goals simp_all

/-! ### Claim-specific configurations -/

/-- Default configuration with the five parallelism degrees replaced. -/
def cfgPar (a b c dsh dr : Int) : Config :=
  { defaultConfig with
      policy.parallelism.tp_size := a,
      policy.parallelism.cp_size := b,
      policy.parallelism.pp_size := c,
      policy.parallelism.dp_shard_size := dsh,
      policy.parallelism.dp_replicate_size := dr }

/-- Default configuration with the pipeline degree, micro-batch size and
per-replica batch size replaced. -/
def cfgPipe (pp micro batch : Int) : Config :=
  { defaultConfig with
      policy.parallelism.pp_size := pp,
      policy.parallelism.pp_micro_batch_size := micro,
      train.train_batch_per_replica := batch }

/-- Default configuration with the checkpoint `upload_s3` value replaced. -/
def cfgUp (u : BoolOrStr) : Config :=
  { defaultConfig with train.ckpt.upload_s3 := u }

/-- Default configuration whose training policy is the reinforcement
variant with a given `reward_function`. -/
def cfgGrpo (rf : StrOrList) : Config :=
  { defaultConfig with train.train_policy := .grpo { reward_function := rf } }

/-- Default configuration whose training policy is a given supervised
variant. -/
def cfgSft (p : SFTDataConfig) : Config :=
  { defaultConfig with train.train_policy := .sft p }

/-! ### The claims -/

/-- C5: validation of the checkpoint remote-upload field raises
`InvalidChoiceError` exactly when `upload_s3` is truthy and not
`"final"`/`"all"`; `false`, `"final"` and `"all"` pass and `"weekly"`
fails. -/
theorem claim_C5_upload (u : BoolOrStr) :
    ((∃ m, Config.validate (cfgUp u) = .error (.invalidChoiceError m)) ↔
      (truthyBS u = true ∧ u ≠ .s "final" ∧ u ≠ .s "all")) ∧
    (∃ c1, Config.validate (cfgUp (.b false)) = .ok c1) ∧
    (∃ c2, Config.validate (cfgUp (.s "final")) = .ok c2) ∧
    (∃ c3, Config.validate (cfgUp (.s "all")) = .ok c3) ∧
    Config.validate (cfgUp (.s "weekly")) = .error (.invalidChoiceError
      "upload_s3 must be one of ['final', 'all'] or False") := by
  have hred : ∀ v : BoolOrStr, Config.validate (cfgUp v) =
      (match checkUpload v with
       | .error e => .error e
       | .ok _ =>
          .ok { cfgUp v with train.train_policy := TrainPolicy.sft {} }) :=
    fun v => rfl
  refine ⟨?_, ⟨_, rfl⟩, ⟨_, rfl⟩, ⟨_, rfl⟩, rfl⟩
  rcases u with b | s
  · cases b <;> simp [hred, checkUpload, truthyBS]
  · by_cases h1 : s = ""
    · subst h1
      simp [hred, checkUpload, truthyBS]
    · by_cases h2 : s = "final"
      · subst h2
        simp [hred, checkUpload, truthyBS]
      · by_cases h3 : s = "all"
        · subst h3
          simp [hred, checkUpload, truthyBS]
        · simp [hred, checkUpload, truthyBS_s_ne s h1, h1, h2, h3]

/-- C6 (counterexample): the async-TP/compile incompatibility is not a
rule of the merged-tree validator — `Config.validate` accepts a tree
with `async_tp_enabled = true` and `compile = false` unchanged. -/
theorem claim_C6_counterexample :
    Config.validate { defaultConfig with
        train.async_tp_enabled := true, train.compile := false } =
      .ok { defaultConfig with
        train.async_tp_enabled := true, train.compile := false } := rfl

/-- C6 (amended): the incompatibility of `async_tp_enabled` with
disabled `compile` is enforced by the `TrainingConfig` constructor check
(`__post_init__`), raising `IncompatibleOptionsError`; with both flags
enabled (and a valid checkpoint section) no error is raised. -/
theorem claim_C6_amended (tc : TrainingConfig)
    (hck : tc.ckpt.postInit = .ok tc.ckpt) :
    (tc.async_tp_enabled = true → tc.compile = false →
      TrainingConfig.postInit tc = .error (.incompatibleOptionsError
        "Async tensor parallelism requires torch.compile to be enabled")) ∧
    (tc.async_tp_enabled = true → tc.compile = true →
      TrainingConfig.postInit tc = .ok tc) := by
  constructor
  · intro h1 h2
    unfold TrainingConfig.postInit
    rw [hck]
    dsimp only
    rw [if_pos (by simp [h1, h2])]
  · intro h1 h2
    unfold TrainingConfig.postInit
    rw [hck]
    dsimp only
    rw [if_neg (by simp [h2])]

theorem claim_C6_witness :
    TrainingConfig.postInit
        { async_tp_enabled := true, compile := false } =
      .error (.incompatibleOptionsError
        "Async tensor parallelism requires torch.compile to be enabled") ∧
    TrainingConfig.postInit { async_tp_enabled := true, compile := true } =
      .ok { async_tp_enabled := true, compile := true } :=
  ⟨(claim_C6_amended { async_tp_enabled := true, compile := false } rfl).1
      rfl rfl,
    (claim_C6_amended { async_tp_enabled := true, compile := true } rfl).2
      rfl rfl⟩

/-- C9 (counterexample): the save-frequency/save-mode rules are not
rules of the merged-tree validator — `Config.validate` accepts a tree
with `save_freq = 0` and `save_mode = "weird"` unchanged. -/
theorem claim_C9_counterexample :
    Config.validate { defaultConfig with
        train.ckpt.save_freq := 0, train.ckpt.save_mode := "weird" } =
      .ok { defaultConfig with
        train.ckpt.save_freq := 0, train.ckpt.save_mode := "weird" } := rfl

/-- C9 (amended): the checkpoint save-frequency/save-mode rules are
enforced by the `CheckpointConfig` constructor check (`__post_init__`,
also re-invoked by the `TrainingConfig` constructor), which raises the
spec's `ValidationError` exactly when `save_freq ≤ 0` or the save mode
is outside `{"async", "sync"}`. -/
theorem claim_C9_amended (c : CheckpointConfig) :
    (CheckpointConfig.postInit c = .ok c ↔
      ((c.save_mode = "async" ∨ c.save_mode = "sync") ∧ 0 < c.save_freq)) ∧
    (¬ ((c.save_mode = "async" ∨ c.save_mode = "sync") ∧ 0 < c.save_freq) →
      ∃ m, CheckpointConfig.postInit c = .error (.validationError m)) ∧
    (∀ tc : TrainingConfig, tc.ckpt = c →
      ¬ ((c.save_mode = "async" ∨ c.save_mode = "sync") ∧ 0 < c.save_freq) →
      ∃ m, TrainingConfig.postInit tc = .error (.validationError m)) := by
  have herr : ¬ ((c.save_mode = "async" ∨ c.save_mode = "sync") ∧
      0 < c.save_freq) →
      ∃ m, CheckpointConfig.postInit c = .error (.validationError m) := by
    intro hno
    unfold CheckpointConfig.postInit
    by_cases hmode : c.save_mode = "async" ∨ c.save_mode = "sync"
    · have hfreq : c.save_freq ≤ 0 := by
        by_contra hf
        exact hno ⟨hmode, by omega⟩
      rw [if_neg (not_not.mpr hmode), if_pos hfreq]
      exact ⟨_, rfl⟩
    · rw [if_pos hmode]
      exact ⟨_, rfl⟩
  refine ⟨⟨?_, ?_⟩, herr, ?_⟩
  · intro h
    unfold CheckpointConfig.postInit at h
    split at h
    · exact Except.noConfusion h
    · split at h
      · exact Except.noConfusion h
      · exact ⟨not_not.mp (by assumption), by omega⟩
  · intro hok
    unfold CheckpointConfig.postInit
    rw [if_neg (not_not.mpr hok.1), if_neg (by omega)]
  · intro tc htc hno
    obtain ⟨m, hm⟩ := herr hno
    refine ⟨m, ?_⟩
    unfold TrainingConfig.postInit
    rw [htc, hm]

theorem claim_C9_witness :
    (¬ ((((⟨false, 0, "async", 5, true, false, "Comos-Reason1", .b false,
        "cosmos-reason1", "outputs"⟩ : CheckpointConfig)).save_mode = "async" ∨
        ((⟨false, 0, "async", 5, true, false, "Comos-Reason1", .b false,
        "cosmos-reason1", "outputs"⟩ : CheckpointConfig)).save_mode = "sync") ∧
        0 < ((⟨false, 0, "async", 5, true, false, "Comos-Reason1", .b false,
        "cosmos-reason1", "outputs"⟩ : CheckpointConfig)).save_freq)) ∧
    (∃ m, CheckpointConfig.postInit
        (⟨false, 0, "async", 5, true, false, "Comos-Reason1", .b false,
        "cosmos-reason1", "outputs"⟩ : CheckpointConfig) =
      .error (.validationError m)) :=
  ⟨by decide, (claim_C9_amended _).2.1 (by decide)⟩

/-- C7 (counterexample): `config_hash` can raise — on a dataclass
containing a non-JSON-serializable value (a set), `json.dumps` raises
`TypeError` instead of yielding the `"unhashable"` sentinel. -/
theorem claim_C7_counterexample :
    configHash (.vobj [("f", .vset [])]) =
      .error (.pyTypeError "Object is not JSON serializable") := by
  simp [configHash, isDataclass, asdictVal, asdictEntries, jsonDumps,
    jsonEntries]

/-- C7 (amended): `config_hash` returns the sentinel `"unhashable"` for
every non-dataclass input, and for a dataclass whose serialization
succeeds it returns the fixed-width 32-character hex digest of the JSON
text; a dataclass containing a non-serializable value raises instead. -/
theorem claim_C7_amended (v : PyVal) :
    (isDataclass v = false → configHash v = .ok "unhashable") ∧
    (∀ s, isDataclass v = true → jsonDumps (asdictVal v) = some s →
      configHash v = .ok (md5Hex (strBytes s)) ∧
        (md5Hex (strBytes s)).length = 32 ∧
        ∀ ch ∈ (md5Hex (strBytes s)).data, ch ∈ hexDigits) := by
  constructor
  · intro h
    simp [configHash, h]
  · intro s h1 h2
    refine ⟨?_, md5Hex_length _, md5Hex_chars _⟩
    simp [configHash, h1, h2]

theorem claim_C7_witness :
    isDataclass (.vobj [("f", .vint 3)]) = true ∧
    jsonDumps (asdictVal (.vobj [("f", .vint 3)])) =
      some "\x7b\"f\": 3\x7d" ∧
    (configHash (.vobj [("f", .vint 3)]) =
        .ok (md5Hex (strBytes "\x7b\"f\": 3\x7d")) ∧
      (md5Hex (strBytes "\x7b\"f\": 3\x7d")).length = 32 ∧
      ∀ ch ∈ (md5Hex (strBytes "\x7b\"f\": 3\x7d")).data, ch ∈ hexDigits) := by
  have h2 : jsonDumps (asdictVal (.vobj [("f", .vint 3)])) =
      some "\x7b\"f\": 3\x7d" := by
    simp [asdictVal, asdictEntries, jsonDumps, jsonEntries, jsonQuote,
      jsonEscapeChar, String.intercalate]
    rfl
  exact ⟨rfl, h2, (claim_C7_amended _).2 _ rfl h2⟩

/-- C3 (counterexample): the quadruple `(tp, cp, pp, dp_shard,
dp_replicate) = (2, 1, 3, -1, 1)` satisfies every condition of the
claim, yet validation fails: with the default per-replica batch size 8
and micro-batch size 1, the micro-batch count 8 is not divisible by
`pp_size = 3`. -/
theorem claim_C3_counterexample :
    ((1 : Int) ≤ 2 ∧ (1 : Int) ≤ 1 ∧ (1 : Int) ≤ 3 ∧
      ((-1 : Int) = -1 ∨ (0 : Int) < -1) ∧ (1 : Int) = 1) ∧
    Config.validate (cfgPar 2 1 3 (-1) 1) = .error (.validationError
      "train_batch / pp_micro_batch_size must be divisible by pp_size") :=
  ⟨by norm_num, rfl⟩

/-- C3 (amended): with all other fields at their defaults, validation
succeeds for every quadruple with `tp, cp, pp ≥ 1`, `dp_shard = -1` or
`> 0` and `dp_replicate = 1` — provided additionally that `pp` divides
the default micro-batch count 8 (`8 % pp == 0`); it fails with
`ValidationError` whenever `dp_shard = 0` or `dp_replicate = 2`,
regardless of the other degrees. -/
theorem claim_C3_amended (a b c dsh dr : Int) :
    (1 ≤ a → 1 ≤ b → 1 ≤ c → (dsh = -1 ∨ 0 < dsh) →
      (8 : Int).fmod c = 0 →
      ∃ c1, Config.validate (cfgPar a b c dsh 1) = .ok c1) ∧
    (dsh = 0 → ∃ m, Config.validate (cfgPar a b c dsh dr) =
      .error (.validationError m)) ∧
    (dr = 2 → ∃ m, Config.validate (cfgPar a b c dsh dr) =
      .error (.validationError m)) := by
  refine ⟨?_, ?_, ?_⟩
  · intro h1 h2 h3 h4 h5
    have hm : checkModel (cfgPar a b c dsh 1) = .ok () := rfl
    have hp : checkParBasic (cfgPar a b c dsh 1).policy.parallelism =
        .ok () := by
      rw [checkParBasic_ok_iff]
      refine ⟨?_, ?_, ?_, ?_, ?_⟩ <;> simp [cfgPar, defaultConfig] <;> omega
    have hq : checkPipeline (cfgPar a b c dsh 1) = .ok () := by
      rw [checkPipeline_ok_iff]
      intro hpp
      simp only [cfgPar, defaultConfig] at hpp ⊢
      refine ⟨by norm_num, by decide, ?_⟩
      rw [show (8 : Int).fdiv 1 = 8 from by decide]
      exact h5
    have hr : checkReward (cfgPar a b c dsh 1).train.train_policy =
        .ok (.sft {}) := rfl
    have hu : checkUpload (cfgPar a b c dsh 1).train.ckpt.upload_s3 =
        .ok () := rfl
    exact ⟨_, validate_eq_of_stages _ _ hm hp hq hr hu⟩
  · intro h0
    subst h0
    have hm : checkModel (cfgPar a b c 0 dr) = .ok () := rfl
    rcases hp : checkParBasic (cfgPar a b c 0 dr).policy.parallelism
        with e | u
    · obtain ⟨m, hm2⟩ := checkParBasic_error_shape _ _ hp
      subst hm2
      exact ⟨m, validate_err_par _ _ hm hp⟩
    · exfalso
      cases u
      have hcond := (checkParBasic_ok_iff _).mp hp
      simp [cfgPar, defaultConfig] at hcond
  · intro h0
    subst h0
    have hm : checkModel (cfgPar a b c dsh 2) = .ok () := rfl
    rcases hp : checkParBasic (cfgPar a b c dsh 2).policy.parallelism
        with e | u
    · obtain ⟨m, hm2⟩ := checkParBasic_error_shape _ _ hp
      subst hm2
      exact ⟨m, validate_err_par _ _ hm hp⟩
    · exfalso
      cases u
      have hcond := (checkParBasic_ok_iff _).mp hp
      simp [cfgPar, defaultConfig] at hcond

theorem claim_C3_witness :
    (∃ c1, Config.validate (cfgPar 1 1 2 (-1) 1) = .ok c1) ∧
    (∃ m, Config.validate (cfgPar 1 1 1 0 2) =
      .error (.validationError m)) ∧
    (∃ m, Config.validate (cfgPar 3 4 5 6 2) =
      .error (.validationError m)) :=
  ⟨(claim_C3_amended 1 1 2 (-1) 1).1 (by norm_num) (by norm_num)
      (by norm_num) (Or.inl rfl) (by decide),
    (claim_C3_amended 1 1 1 0 2).2.1 rfl,
    (claim_C3_amended 3 4 5 6 2).2.2 rfl⟩

/-- C4: with pipeline parallelism `pp > 1` (other fields default),
validation succeeds exactly when the micro-batch size is positive, the
per-replica batch size is divisible by it, and the micro-batch count is
divisible by `pp` — otherwise it fails with `ValidationError`; batch 8,
`pp` 4, micro-batch 2 passes while micro-batch 3 fails; with `pp = 1`
none of these conditions is checked. -/
theorem claim_C4_pipeline (pq micro batch : Int) :
    (1 < pq →
      (((∃ c1, Config.validate (cfgPipe pq micro batch) = .ok c1) ↔
        (0 < micro ∧ batch.fmod micro = 0 ∧
          (batch.fdiv micro).fmod pq = 0)) ∧
      (¬ (0 < micro ∧ batch.fmod micro = 0 ∧
          (batch.fdiv micro).fmod pq = 0) →
        ∃ m, Config.validate (cfgPipe pq micro batch) =
          .error (.validationError m)))) ∧
    (pq = 1 → ∃ c1, Config.validate (cfgPipe pq micro batch) = .ok c1) ∧
    (∃ c2, Config.validate (cfgPipe 4 2 8) = .ok c2) ∧
    (∃ m, Config.validate (cfgPipe 4 3 8) =
      .error (.validationError m)) := by
  have hm : ∀ x y z : Int, checkModel (cfgPipe x y z) = .ok () :=
    fun _ _ _ => rfl
  have hr : ∀ x y z : Int,
      checkReward (cfgPipe x y z).train.train_policy = .ok (.sft {}) :=
    fun _ _ _ => rfl
  have hu : ∀ x y z : Int,
      checkUpload (cfgPipe x y z).train.ckpt.upload_s3 = .ok () :=
    fun _ _ _ => rfl
  refine ⟨?_, ?_, ⟨_, rfl⟩, ⟨_, rfl⟩⟩
  · intro hpp
    have hp : checkParBasic (cfgPipe pq micro batch).policy.parallelism =
        .ok () := by
      rw [checkParBasic_ok_iff]
      refine ⟨?_, ?_, ?_, ?_, ?_⟩ <;> simp [cfgPipe, defaultConfig]
      omega
    constructor
    · constructor
      · rintro ⟨c1, hv⟩
        have hq := (validate_ok_stages _ _ hv).2.2.1
        have h2 := (checkPipeline_ok_iff _).mp hq
        simp only [cfgPipe, defaultConfig] at h2
        exact h2 hpp
      · rintro ⟨hmi, hdiv, hcount⟩
        have hq : checkPipeline (cfgPipe pq micro batch) = .ok () := by
          rw [checkPipeline_ok_iff]
          intro hpp2
          simp only [cfgPipe, defaultConfig]
          exact ⟨hmi, hdiv, hcount⟩
        exact ⟨_, validate_eq_of_stages _ _ (hm _ _ _) hp hq
          (hr _ _ _) (hu _ _ _)⟩
    · intro hno
      rcases hq : checkPipeline (cfgPipe pq micro batch) with e | u
      · obtain ⟨m, he⟩ := checkPipeline_error_shape _ _ hq
        subst he
        exact ⟨m, validate_err_pipe _ _ (hm _ _ _) hp hq⟩
      · exfalso
        cases u
        have h2 := (checkPipeline_ok_iff _).mp hq
        simp only [cfgPipe, defaultConfig] at h2
        exact hno (h2 hpp)
  · intro hpp1
    subst hpp1
    have hp : checkParBasic (cfgPipe 1 micro batch).policy.parallelism =
        .ok () := by
      rw [checkParBasic_ok_iff]
      refine ⟨?_, ?_, ?_, ?_, ?_⟩ <;> simp [cfgPipe, defaultConfig]
    have hq : checkPipeline (cfgPipe 1 micro batch) = .ok () := by
      rw [checkPipeline_ok_iff]
      intro hpp2
      simp [cfgPipe, defaultConfig] at hpp2
    exact ⟨_, validate_eq_of_stages _ _ (hm _ _ _) hp hq (hr _ _ _) (hu _ _ _)⟩

theorem claim_C4_witness :
    ((∃ c1, Config.validate (cfgPipe 4 2 8) = .ok c1) ↔
      (0 < (2 : Int) ∧ (8 : Int).fmod 2 = 0 ∧
        ((8 : Int).fdiv 2).fmod 4 = 0)) ∧
    (∃ c1, Config.validate (cfgPipe 1 0 7) = .ok c1) :=
  ⟨((claim_C4_pipeline 4 2 8).1 (by norm_num)).1,
    (claim_C4_pipeline 1 0 7).2.1 rfl⟩

/-- C8: for the reinforcement variant (other fields default), validation
normalizes a bare-string `reward_function` into a one-element list and
fails with `ValidationError` exactly when the resulting list is empty;
for the supervised variant no reward-function check is made. -/
theorem claim_C8_reward (rf : StrOrList) :
    ((∃ m, Config.validate (cfgGrpo rf) = .error (.validationError m)) ↔
      rf = .l []) ∧
    (∀ c', Config.validate (cfgGrpo rf) = .ok c' →
      ∃ g, c'.train.train_policy = .grpo g ∧
        g.reward_function = .l (match rf with | .s s => [s] | .l xs => xs)) ∧
    (∀ p : SFTDataConfig, p.type ≠ "grpo" →
      ∃ c1, Config.validate (cfgSft p) = .ok c1) := by
  have hsft : ∀ p : SFTDataConfig, p.type ≠ "grpo" →
      ∃ c1, Config.validate (cfgSft p) = .ok c1 := by
    intro p hp
    have hrw : checkReward (cfgSft p).train.train_policy = .ok (.sft p) := by
      show checkReward (.sft p) = .ok (.sft p)
      unfold checkReward
      rw [if_neg (by simpa [TrainPolicy.typeStr] using hp)]
    exact ⟨_, validate_eq_of_stages _ _ rfl rfl rfl hrw rfl⟩
  rcases rf with s | xs
  · have hrw : checkReward (cfgGrpo (.s s)).train.train_policy =
        .ok (.grpo { reward_function := .l [s] }) := rfl
    have hval := validate_eq_of_stages (cfgGrpo (.s s)) _ rfl rfl rfl hrw rfl
    refine ⟨?_, ?_, hsft⟩
    · constructor
      · rintro ⟨m, hm2⟩
        rw [hval] at hm2
        exact absurd hm2 (by simp)
      · intro h
        exact absurd h (by simp)
    · intro c' hc
      rw [hval] at hc
      have hce := Except.ok.inj hc
      subst hce
      exact ⟨_, rfl, rfl⟩
  · cases xs with
    | nil =>
        have hrw : checkReward (cfgGrpo (.l [])).train.train_policy =
            .error (.validationError
              "reward_function must be a list of reward functions") := rfl
        have hval := validate_err_reward (cfgGrpo (.l [])) _ rfl rfl rfl hrw
        refine ⟨?_, ?_, hsft⟩
        · constructor
          · intro _
            rfl
          · intro _
            exact ⟨_, hval⟩
        · intro c' hc
          rw [hval] at hc
          exact absurd hc (by simp)
    | cons x rest =>
        have hrw : checkReward (cfgGrpo (.l (x :: rest))).train.train_policy =
            .ok (.grpo { reward_function := .l (x :: rest) }) := by
          show checkReward (.grpo { reward_function := .l (x :: rest) }) = _
          unfold checkReward
          split
          · dsimp only
            rw [if_pos (by simp)]
          · simp_all [TrainPolicy.typeStr]
        have hval := validate_eq_of_stages (cfgGrpo (.l (x :: rest))) _
          rfl rfl rfl hrw rfl
        refine ⟨?_, ?_, hsft⟩
        · constructor
          · rintro ⟨m, hm2⟩
            rw [hval] at hm2
            exact absurd hm2 (by simp)
          · intro h
            exact absurd h (by simp)
        · intro c' hc
          rw [hval] at hc
          have hce := Except.ok.inj hc
          subst hce
          exact ⟨_, rfl, rfl⟩

theorem claim_C8_witness :
    (∃ c' g, Config.validate (cfgGrpo (.s "single_choice")) = .ok c' ∧
      c'.train.train_policy = .grpo g ∧
      g.reward_function = .l ["single_choice"]) ∧
    (∃ c1, Config.validate (cfgSft {}) = .ok c1) := by
  constructor
  · obtain ⟨g, hg1, hg2⟩ := (claim_C8_reward (.s "single_choice")).2.1 _ rfl
    exact ⟨_, g, rfl, hg1, hg2⟩
  · exact (claim_C8_reward (.l [])).2.2 {} (by decide)

theorem isGrpo_exists (tp : TrainPolicy) :
    tp.isGrpo = true ↔ ∃ g, tp = .grpo g := by
  cases tp <;> simp [TrainPolicy.isGrpo]

/-- C1: for a raw override whose `train.train_policy` is a sub-mapping,
the variant resolution of `Config.from_dict` installs a default
`GrpoConfig` when any discriminator key (`temperature`, `epsilon_low`,
`epsilon_high`, `kl_beta`) is present and a default `SFTDataConfig`
otherwise; accordingly, a successful `from_dict` run resolves to the
reinforcement variant exactly when a discriminator key is present. -/
theorem claim_C1_variant_resolution (cfg : Config) (now : PyDateTime)
    (d t tpd : PyDict)
    (ht : PyDict.find d "train" = some (.vdict t))
    (htp : PyDict.find t "train_policy" = some (.vdict tpd)) :
    ((∃ k ∈ (["temperature", "epsilon_low", "epsilon_high", "kl_beta"] :
        List String), (PyDict.find tpd k).isSome = true) →
      resolvePolicy cfg d = .ok
        { cfg with train.train_policy := .grpo {} }) ∧
    ((∀ k ∈ (["temperature", "epsilon_low", "epsilon_high", "kl_beta"] :
        List String), PyDict.find tpd k = none) →
      resolvePolicy cfg d = .ok
        { cfg with train.train_policy := .sft {} }) ∧
    (∀ (d1 : PyDict) (c' : Config),
      Config.from_dict now d = (d1, .ok c') →
      ((∃ g, c'.train.train_policy = .grpo g) ↔
        ∃ k ∈ (["temperature", "epsilon_low", "epsilon_high", "kl_beta"] :
          List String), (PyDict.find tpd k).isSome = true)) := by
  have hres := resolvePolicy_eq cfg d t tpd ht htp
  refine ⟨?_, ?_, ?_⟩
  · intro hex
    have hb : (["temperature", "epsilon_low", "epsilon_high",
        "kl_beta"].any fun k => (PyDict.find tpd k).isSome) = true := by
      rw [List.any_eq_true]
      obtain ⟨k, hk, hks⟩ := hex
      exact ⟨k, hk, hks⟩
    rw [hres]
    simp [hb]
  · intro hall
    have hb : (["temperature", "epsilon_low", "epsilon_high",
        "kl_beta"].any fun k => (PyDict.find tpd k).isSome) = false := by
      simp only [List.any_eq_false]
      intro k hk
      simp [hall k hk]
    rw [hres]
    simp [hb]
  · intro d1 c' hfd
    obtain ⟨hs, cfg1, cfg2, hr, hu2, hv⟩ := from_dict_ok_decompose _ _ _ _ hfd
    obtain ⟨t', ht', htp'⟩ := stampTrain_preserves now d d1 t hs ht
    rw [htp] at htp'
    have hres1 := resolvePolicy_eq defaultConfig d1 t' tpd ht' htp'
    rw [hres1] at hr
    have hc1 := Except.ok.inj hr
    have hchain : c'.train.train_policy.isGrpo =
        cfg1.train.train_policy.isGrpo :=
      ((validate_ok_train _ _ hv).1).trans (update_shape _ _ _ hu2)
    cases hB : (["temperature", "epsilon_low", "epsilon_high",
        "kl_beta"].any fun k => (PyDict.find tpd k).isSome) with
    | true =>
        rw [hB] at hc1
        simp only [if_true] at hc1
        subst hc1
        constructor
        · intro _
          have hex := List.any_eq_true.mp hB
          simpa using hex
        · intro _
          exact (isGrpo_exists _).mp (hchain.trans rfl)
    | false =>
        rw [hB] at hc1
        simp only [Bool.false_eq_true, if_false] at hc1
        subst hc1
        have hfalse : c'.train.train_policy.isGrpo = false :=
          hchain.trans rfl
        constructor
        · rintro ⟨g, hg⟩
          rw [hg] at hfalse
          exact absurd hfalse (by simp [TrainPolicy.isGrpo])
        · intro hex
          have hb2 : (["temperature", "epsilon_low", "epsilon_high",
              "kl_beta"].any fun k => (PyDict.find tpd k).isSome) = true := by
            rw [List.any_eq_true]
            obtain ⟨k, hk, hks⟩ := hex
            exact ⟨k, hk, hks⟩
          rw [hB] at hb2
          exact absurd hb2 (by simp)

theorem claim_C1_witness :
    resolvePolicy defaultConfig
      [("train", .vdict [("train_policy",
        .vdict [("temperature", .vfloat ⟨"0.7"⟩)])])] =
      .ok { defaultConfig with train.train_policy := .grpo {} } ∧
    resolvePolicy defaultConfig
      [("train", .vdict [("train_policy",
        .vdict [("dataset_name", .vstr "foo")])])] =
      .ok { defaultConfig with train.train_policy := .sft {} } := by
  constructor
  · exact (claim_C1_variant_resolution defaultConfig {}
      [("train", .vdict [("train_policy",
        .vdict [("temperature", .vfloat ⟨"0.7"⟩)])])]
      [("train_policy", .vdict [("temperature", .vfloat ⟨"0.7"⟩)])]
      [("temperature", .vfloat ⟨"0.7"⟩)] rfl rfl).1
      ⟨"temperature", by simp, rfl⟩
  · exact (claim_C1_variant_resolution defaultConfig {}
      [("train", .vdict [("train_policy",
        .vdict [("dataset_name", .vstr "foo")])])]
      [("train_policy", .vdict [("dataset_name", .vstr "foo")])]
      [("dataset_name", .vstr "foo")] rfl rfl).2.1
      (by intro k hk; fin_cases hk <;> rfl)

/-- C2 (counterexample): on the override `{"train": {}}` — a training
section with the timestamp absent — `Config.from_dict` raises `KeyError`
on `output_dir` instead of deriving an output directory; the timestamp
alone has been synthesized into the mapping. -/
theorem claim_C2_counterexample :
    (Config.from_dict {} [("train", .vdict [])]).2 =
      .error (.keyError "output_dir") ∧
    (Config.from_dict {} [("train", .vdict [])]).1 =
      [("train", .vdict [("timestamp", .vstr (strftime14 {}))])] ∧
    strftime14 {} = "20250101000000" :=
  ⟨rfl, rfl, rfl⟩

/-- C2 (amended): when the training section of the override has an
absent or empty timestamp and carries a base `output_dir` string, the
merge synthesizes the timestamp once and derives the output directory by
joining the override's base with it — both in the mutated mapping and in
the resolved tree; re-running the merge on the mapping produced by any
successful merge changes nothing (in particular the timestamp and
output directory), even at a different wall-clock time. -/
theorem claim_C2_timestamp (now now' : PyDateTime) (d t : PyDict)
    (o : String)
    (ht : PyDict.find d "train" = some (.vdict t))
    (hts : PyDict.find t "timestamp" = none ∨
      PyDict.find t "timestamp" = some (.vstr ""))
    (ho : PyDict.find t "output_dir" = some (.vstr o)) :
    (∃ t2, PyDict.find (Config.from_dict now d).1 "train" =
        some (.vdict t2) ∧
      PyDict.find t2 "timestamp" = some (.vstr (strftime14 now)) ∧
      PyDict.find t2 "output_dir" =
        some (.vstr (ospathjoin o (strftime14 now)))) ∧
    (∀ c', (Config.from_dict now d).2 = .ok c' →
      c'.train.timestamp = strftime14 now ∧
      c'.train.output_dir = ospathjoin o (strftime14 now)) ∧
    (∀ (e e1 : PyDict) (cv : Config),
      Config.from_dict now e = (e1, .ok cv) →
      Config.from_dict now' e1 = (e1, .ok cv)) := by
  have hsynth := stampTrain_synth now d t o ht hts ho
  have hfst : (Config.from_dict now d).1 = PyDict.set d "train" (.vdict
      (PyDict.set (PyDict.set t "timestamp" (.vstr (strftime14 now)))
        "output_dir" (.vstr (ospathjoin o (strftime14 now))))) := by
    rw [from_dict_fst, hsynth]
  have hfind2 : PyDict.find
      (PyDict.set (PyDict.set t "timestamp" (.vstr (strftime14 now)))
        "output_dir" (.vstr (ospathjoin o (strftime14 now))))
      "timestamp" = some (.vstr (strftime14 now)) := by
    rw [PyDict.find_set_ne _ _ _ _ (by decide)]
    exact PyDict.find_set_self _ _ _
  refine ⟨?_, ?_, ?_⟩
  · refine ⟨_, ?_, hfind2, PyDict.find_set_self _ _ _⟩
    rw [hfst]
    exact PyDict.find_set_self _ _ _
  · intro c' hc
    have hpair : Config.from_dict now d = (PyDict.set d "train" (.vdict
        (PyDict.set (PyDict.set t "timestamp" (.vstr (strftime14 now)))
          "output_dir" (.vstr (ospathjoin o (strftime14 now))))),
        .ok c') := Prod.ext hfst hc
    obtain ⟨hs, cfg1, cfg2, hr, hu2, hv⟩ := from_dict_ok_decompose _ _ _ _ hpair
    have htrm := (update_fields _ _ _ hu2).1
    rw [mNested_found _ _ _ _ _ (PyDict.find_set_self _ _ _)] at htrm
    have hflds := mergeTraining_fields _ _ _ htrm
    have hts2 : cfg2.train.timestamp = strftime14 now := by
      have h1 := (mStr_found _ "timestamp" cfg1.train.timestamp
        (strftime14 now) hfind2).symm.trans hflds.1
      exact (Except.ok.inj h1).symm
    have hod2 : cfg2.train.output_dir = ospathjoin o (strftime14 now) := by
      have h1 := (mStr_found _ "output_dir" cfg1.train.output_dir
        (ospathjoin o (strftime14 now))
        (PyDict.find_set_self _ _ _)).symm.trans hflds.2.1
      exact (Except.ok.inj h1).symm
    have hvt := validate_ok_train _ _ hv
    exact ⟨hvt.2.1.trans hts2, hvt.2.2.trans hod2⟩
  · intro e e1 cv h3
    obtain ⟨hs3, cfg1, cfg2, hr, hu2, hv⟩ := from_dict_ok_decompose _ _ _ _ h3
    exact from_dict_ok_compose now' e1 e1 cfg1 cfg2 cv
      (stampTrain_idem now now' e e1 hs3) hr hu2 hv

theorem claim_C2_witness :
    ∃ t2, PyDict.find (Config.from_dict {}
        [("train", .vdict [("output_dir", .vstr "./outputs")])]).1 "train" =
      some (.vdict t2) ∧
      PyDict.find t2 "timestamp" = some (.vstr (strftime14 {})) ∧
      PyDict.find t2 "output_dir" =
        some (.vstr (ospathjoin "./outputs" (strftime14 {}))) :=
  (claim_C2_timestamp {} {}
    [("train", .vdict [("output_dir", .vstr "./outputs")])]
    [("output_dir", .vstr "./outputs")] "./outputs"
    rfl (Or.inl rfl) rfl).1

/-- C10 (counterexample): on the override `{"train": {"timestamp": ""}}`
`Config.from_dict` writes the synthesized timestamp back into the
caller's mapping but not a derived output directory — it raises
`KeyError` instead, so timestamp and output directory are not both
written back as the claim states. -/
theorem claim_C10_counterexample :
    (Config.from_dict {} [("train", .vdict [("timestamp", .vstr "")])]).1 =
      [("train", .vdict [("timestamp", .vstr (strftime14 {}))])] ∧
    (Config.from_dict {} [("train", .vdict [("timestamp", .vstr "")])]).2 =
      .error (.keyError "output_dir") :=
  ⟨rfl, rfl⟩

/-- C10 (amended): `Config.from_dict` mutates the caller's mapping: with
a training section whose timestamp is absent or empty, the synthesized
timestamp is written back, and the derived output directory too when the
section carries a base `output_dir` string; when `output_dir` is absent
only the timestamp is written and the merge raises `KeyError`; a mapping
without a training section is returned unmodified. -/
theorem claim_C10_mutation (now : PyDateTime) (d t : PyDict)
    (ht : PyDict.find d "train" = some (.vdict t))
    (hts : PyDict.find t "timestamp" = none ∨
      PyDict.find t "timestamp" = some (.vstr "")) :
    (∀ o : String, PyDict.find t "output_dir" = some (.vstr o) →
      (Config.from_dict now d).1 = PyDict.set d "train" (.vdict
        (PyDict.set (PyDict.set t "timestamp" (.vstr (strftime14 now)))
          "output_dir" (.vstr (ospathjoin o (strftime14 now)))))) ∧
    (PyDict.find t "output_dir" = none →
      (Config.from_dict now d).1 = PyDict.set d "train" (.vdict
        (PyDict.set t "timestamp" (.vstr (strftime14 now)))) ∧
      (Config.from_dict now d).2 = .error (.keyError "output_dir")) ∧
    (∀ e : PyDict, PyDict.find e "train" = none →
      (Config.from_dict now e).1 = e) := by
  refine ⟨?_, ?_, ?_⟩
  · intro o ho
    rw [from_dict_fst, stampTrain_synth now d t o ht hts ho]
  · intro ho
    have hk := stampTrain_keyerr now d t ht hts ho
    constructor
    · rw [from_dict_fst, hk]
    · rw [from_dict_stamp_err now d _ _ hk]
  · intro e he
    rw [from_dict_fst, stampTrain_no_train now e he]

theorem claim_C10_witness :
    ((Config.from_dict {} [("train", .vdict [("timestamp", .vstr ""),
        ("output_dir", .vstr "./o")])]).1 =
      PyDict.set [("train", .vdict [("timestamp", .vstr ""),
        ("output_dir", .vstr "./o")])] "train" (.vdict
        (PyDict.set (PyDict.set [("timestamp", .vstr ""),
          ("output_dir", .vstr "./o")] "timestamp"
          (.vstr (strftime14 {}))) "output_dir"
          (.vstr (ospathjoin "./o" (strftime14 {})))))) ∧
    (Config.from_dict {} [("x", .vint 1)]).1 = [("x", .vint 1)] :=
  ⟨(claim_C10_mutation {} [("train", .vdict [("timestamp", .vstr ""),
      ("output_dir", .vstr "./o")])]
      [("timestamp", .vstr ""), ("output_dir", .vstr "./o")]
      rfl (Or.inr rfl)).1 "./o" rfl,
    (claim_C10_mutation {} [("train", .vdict [("timestamp", .vstr "")])]
      [("timestamp", .vstr "")] rfl (Or.inr rfl)).2.2 [("x", .vint 1)] rfl⟩
